import Mathlib

/-!
Verification development for the YMODEM receiver state machine
(`src/ymodem.c`, `src/ymodem.h`).

The C sources are shallowly embedded: machine integers are `Nat` with
explicit truncation (`% 2 ^ w`) where the C code can overflow, fixed C
arrays are `List Nat` of the corresponding length, and the two external
collaborators (the `ymodem_FileCallback` sink and the serial write
function) are modelled as a pure response function plus an event trace
recording every invocation.  The `assert(p->initialized = MASK)` guards
are assignments in the source (not comparisons); they are modelled
faithfully as a state update whose asserted value is the assigned
(non-zero) constant.
-/

namespace Ymodem

/-! ## Protocol constants (enum YM_CC and the packet-layout macros) -/

def SOH : Nat := 0x01

def STX : Nat := 0x02

def EOT : Nat := 0x04

def ACK : Nat := 0x06

def NAK : Nat := 0x15

def CA : Nat := 0x18

def CRC16 : Nat := 0x43

def ABORT1 : Nat := 0x41

def ABORT2 : Nat := 0x61

def YM_CRC_POLY : Nat := 0x1021

def YM_FILE_NAME_LENGTH : Nat := 256

def YM_FILE_SIZE_LENGTH : Nat := 16

def YM_RESP_PAYLOAD_LEN : Nat := 5

def YM_PACKET_SIZE : Nat := 128

def YM_PACKET_1K_SIZE : Nat := 1024

def YM_PACKET_SEQNO_INDEX : Nat := 1

def YM_PACKET_SEQNO_COMP_INDEX : Nat := 2

def YM_PACKET_HEADER : Nat := 3

def YM_PACKET_TRAILER : Nat := 2

def YM_PACKET_OVERHEAD : Nat := YM_PACKET_HEADER + YM_PACKET_TRAILER

def YM_PACKET_1K_OVRHD_SIZE : Nat := YM_PACKET_1K_SIZE + YM_PACKET_OVERHEAD

def YM_INSTANCE_INIT_MASK : Nat := 0x52

/-! ## Enumerations -/

/-- `ymodem_err_e` from `ymodem.h`. -/
inductive ymodem_err_e where
  | YMODEM_OK
  | YMODEM_TX_PENDING
  | YMODEM_ABORTED
  | YMODEM_WRITE_ERR
  | YMODEM_SIZE_ERR
  | YMODEM_COMPLETE
deriving DecidableEq, Repr

/-- `ymodem_file_cb_e` from `ymodem.h`. -/
inductive ymodem_file_cb_e where
  | YMODEM_FILE_CB_NAME
  | YMODEM_FILE_CB_DATA
  | YMODEM_FILE_CB_END
  | YMODEM_FILE_CB_ABORTED
deriving DecidableEq, Repr

/-- internal `ym_ret_t` from `ymodem.c`. -/
inductive ym_ret_t where
  | YM_OK
  | YM_ABORTED
  | YM_ABORT
  | YM_WRITE_ERR
  | YM_SIZE_ERR
  | YM_START_RX
  | YM_RX_ERROR
  | YM_RX_OK
  | YM_RX_COMPLETE
  | YM_SUCCESS
deriving DecidableEq, Repr

open ymodem_err_e ymodem_file_cb_e ym_ret_t

/-! ## Session state (`ymodem_t`)

The `serialWriteFxn` function pointer is modelled by a `Bool` recording
whether it is non-NULL; the bytes it receives are captured in the event
trace.  `packetsReceived` is an `int32_t` in C that is only ever zeroed
or incremented, far below overflow, so `Nat` models every reachable
value exactly. -/

structure ymodem_t where
  fileName : List Nat
  fileSizeStr : List Nat
  packetData : List Nat
  payloadTx : List Nat
  payloadLen : Nat
  initialized : Nat
  fileSize : Nat
  prevC : Nat
  startOfPacket : Nat
  eotReceived : Nat
  packetBytes : Nat
  packetSize : Nat
  packetsReceived : Nat
  nextStatus : ymodem_err_e
  serialWriteFxn : Bool
deriving DecidableEq, Repr

/-- Observable interactions with the two external collaborators:
invocations of `ymodem_FileCallback` and of the serial write function. -/
inductive ym_event where
  | fileCb (e : ymodem_file_cb_e) (data : List Nat) (len : Nat)
  | serialTx (bytes : List Nat)
deriving DecidableEq, Repr

/-- The external sink `ymodem_FileCallback`, modelled as a pure response
function: given the event kind, the data bytes it can read and the
length argument, it returns a `ymodem_err_e`. -/
def ym_callback : Type := ymodem_file_cb_e → List Nat → Nat → ymodem_err_e

/-! ## CRC engine (`crc_update`, `crc16`) -/

/-- `crc_update` from `ymodem.c`: one bit-serial CRC step on a 16-bit
register.  `crc_in << 1` is truncated by the `uint16_t` assignment. -/
def crc_update (crc_in : Nat) (incr : Bool) : Nat :=
  let x := crc_in >>> 15
  let out := (crc_in <<< 1) % 65536
  let out := if incr then out + 1 else out
  if x ≠ 0 then out ^^^ YM_CRC_POLY else out

/-- The inner loop of `crc16`: feed the 8 bits of one byte, MSB first
(`for (i = 0x80; i; i >>= 1) crc = crc_update(crc, *data & i)`). -/
def crc16_byte (crc b : Nat) : Nat :=
  [0x80, 0x40, 0x20, 0x10, 0x08, 0x04, 0x02, 0x01].foldl
    (fun c m => crc_update c (b &&& m ≠ 0)) crc

/-- Flush the register: `for (i = 0; i < 16; i++) crc = crc_update(crc, 0)`. -/
def crc16_flush (crc : Nat) : Nat :=
  (fun c => crc_update c false)^[16] crc

/-- `crc16` from `ymodem.c`, over the byte list the C pointer/size pair
denotes. -/
def crc16 (data : List Nat) : Nat :=
  crc16_flush (data.foldl crc16_byte 0)

/-- `SWAP16` macro. -/
def SWAP16 (x : Nat) : Nat :=
  (x >>> 8) ||| ((x &&& 0xff) <<< 8)

/-! ## `ymodem_CheckCRC` -/

/-- `ymodem_CheckCRC` from `ymodem.c`.  `sourceCRC` is a `uint16_t`, so
its second assignment truncates. -/
def ymodem_CheckCRC (s : ymodem_t) : ym_ret_t :=
  let sourceCRC := s.packetData.getD (s.packetSize + YM_PACKET_OVERHEAD - 1) 0
  let sourceCRC := ((sourceCRC <<< 8) ||| s.packetData.getD (s.packetSize + YM_PACKET_OVERHEAD - 2) 0) % 65536
  let newCRC := SWAP16 (crc16 ((s.packetData.drop YM_PACKET_HEADER).take s.packetSize)) % 65536
  if newCRC ≠ sourceCRC then YM_RX_ERROR else YM_OK

/-! ## `Str2Int` -/

/-- Loop body of `Str2Int`: index `i` runs over `0..10`; `val` is a
`uint32_t` accumulator, hence the `% 2 ^ 32`.  Returns `some val` when a
NUL terminator is reached (the success case that stores `*intnum`),
`none` on a non-digit character or when the fuel for the 11 iterations
runs out (over 10 digits). -/
def Str2IntGo (str : List Nat) : Nat → Nat → Nat → Option Nat
  | _, _, 0 => none
  | i, val, fuel + 1 =>
    let c := str.getD i 0
    if c = 0 then some val
    else if 48 ≤ c ∧ c ≤ 57 then
      Str2IntGo str (i + 1) ((val * 10 + (c - 48)) % 4294967296) fuel
    else none

/-- `Str2Int` from `ymodem.c`: `some v` models `return 1` with
`*intnum = v`; `none` models `return 0` (nothing stored). -/
def Str2Int (str : List Nat) : Option Nat :=
  Str2IntGo str 0 0 11

/-! ## State-updating entry points -/

/-- The `assert (ymodem->initialized = YM_INSTANCE_INIT_MASK)` guard of
`ymodem_ReceiveByte`, `ymodem_Reset` and `ymodem_Abort`.  The argument
of `assert` is an assignment, so the guard stores the mask and the
asserted condition is the truthiness of the assigned value.  The
returned `Bool` is that condition. -/
def ymodem_init_assert (s : ymodem_t) : ymodem_t × Bool :=
  let s := { s with initialized := YM_INSTANCE_INIT_MASK }
  (s, s.initialized != 0)

/-- `ymodem_Init` from `ymodem.c`.  `fxn` records whether the supplied
serial write function pointer is non-NULL. -/
def ymodem_Init (s : ymodem_t) (fxn : Bool) : ymodem_t :=
  if s.initialized = YM_INSTANCE_INIT_MASK then s
  else
    { s with
      fileName := List.replicate YM_FILE_NAME_LENGTH 0
      fileSizeStr := List.replicate YM_FILE_SIZE_LENGTH 0
      packetData := List.replicate YM_PACKET_1K_OVRHD_SIZE 0
      fileSize := 0
      prevC := 0
      startOfPacket := 1
      packetBytes := 0
      packetSize := 0
      packetsReceived := 0
      eotReceived := 0
      serialWriteFxn := fxn
      nextStatus := YMODEM_OK
      initialized := YM_INSTANCE_INIT_MASK }

/-- `ymodem_Abort` from `ymodem.c`. -/
def ymodem_Abort (s : ymodem_t) : ymodem_t × ymodem_err_e :=
  let s := (ymodem_init_assert s).1
  let s :=
    { s with
      payloadTx := (s.payloadTx.set 0 CA).set 1 CA
      payloadLen := 2
      nextStatus := YMODEM_ABORTED
      packetsReceived := 0 }
  (s, YMODEM_ABORTED)

/-- `ymodem_Reset` from `ymodem.c`. -/
def ymodem_Reset (s : ymodem_t) : ymodem_t × ymodem_err_e :=
  let s := (ymodem_init_assert s).1
  let s :=
    { s with
      fileSize := 0
      prevC := 0
      startOfPacket := 1
      packetBytes := 0
      packetSize := 0
      packetsReceived := 0
      eotReceived := 0
      nextStatus := YMODEM_OK }
  (s, YMODEM_OK)

/-- `GenerateResponse` from `ymodem.c`. -/
def GenerateResponse (s : ymodem_t) (retVal : ym_ret_t) : ymodem_t × ymodem_err_e :=
  match retVal with
  | YM_OK => ({ s with payloadLen := 0 }, YMODEM_OK)
  | YM_ABORT => ((ymodem_Abort s).1, YMODEM_TX_PENDING)
  | YM_ABORTED =>
    ({ s with
        payloadTx := s.payloadTx.set 0 CRC16
        payloadLen := 1
        nextStatus := YMODEM_ABORTED }, YMODEM_TX_PENDING)
  | YM_WRITE_ERR => ({ (ymodem_Abort s).1 with nextStatus := YMODEM_WRITE_ERR }, YMODEM_TX_PENDING)
  | YM_SIZE_ERR => ({ (ymodem_Abort s).1 with nextStatus := YMODEM_SIZE_ERR }, YMODEM_TX_PENDING)
  | YM_START_RX =>
    ({ s with
        payloadTx := (s.payloadTx.set 0 ACK).set 1 CRC16
        payloadLen := 2 }, YMODEM_TX_PENDING)
  | YM_RX_ERROR => ({ s with payloadTx := s.payloadTx.set 0 NAK, payloadLen := 1 }, YMODEM_TX_PENDING)
  | YM_RX_OK => ({ s with payloadTx := s.payloadTx.set 0 ACK, payloadLen := 1 }, YMODEM_TX_PENDING)
  | YM_RX_COMPLETE =>
    ({ s with
        payloadTx := (s.payloadTx.set 0 ACK).set 1 CRC16
        payloadLen := 2 }, YMODEM_TX_PENDING)
  | YM_SUCCESS =>
    ({ s with
        payloadTx := s.payloadTx.set 0 ACK
        payloadLen := 1
        nextStatus := YMODEM_COMPLETE }, YMODEM_TX_PENDING)

/-- `ymodem_ProcessDataPacket` from `ymodem.c`: hand the payload slice
(`packetData + YM_PACKET_HEADER`, length `packetSize`) to the sink. -/
def ymodem_ProcessDataPacket (cb : ym_callback) (s : ymodem_t) :
    ymodem_t × ym_ret_t × List ym_event :=
  let buffIn := (s.packetData.drop YM_PACKET_HEADER).take s.packetSize
  let err := cb YMODEM_FILE_CB_DATA buffIn s.packetSize
  let ret := if err = YMODEM_OK then YM_RX_OK else YM_WRITE_ERR
  ({ s with packetsReceived := s.packetsReceived + 1 }, ret,
   [ym_event.fileCb YMODEM_FILE_CB_DATA buffIn s.packetSize])

/-- Write `vals` into `buf` starting at index 0, via repeated
`List.set` (C array stores; out-of-range stores are dropped). -/
def writeFrom (buf : List Nat) : Nat → List Nat → List Nat
  | _, [] => buf
  | i, v :: vs => writeFrom (buf.set i v) (i + 1) vs

/-- `ymodem_ProcessFirstPacket` from `ymodem.c`.  The two copy loops
walk the packet buffer starting at the payload: the filename is copied
up to its NUL (at most `YM_FILE_NAME_LENGTH` characters) and
NUL-terminated, then the size string from just after that NUL up to a
space (at most `YM_FILE_SIZE_LENGTH` characters), NUL-terminated. -/
def ymodem_ProcessFirstPacket (cb : ym_callback) (s : ymodem_t) :
    ymodem_t × ym_ret_t × List ym_event :=
  if s.packetData.getD YM_PACKET_HEADER 0 ≠ 0 then
    let src := s.packetData.drop YM_PACKET_HEADER
    let nameChars := (src.takeWhile (fun c => c ≠ 0)).take YM_FILE_NAME_LENGTH
    let fileName' := writeFrom s.fileName 0 (nameChars ++ [0])
    let src2 := src.drop (nameChars.length + 1)
    let sizeChars := (src2.takeWhile (fun c => c ≠ 32)).take YM_FILE_SIZE_LENGTH
    let fileSizeStr' := writeFrom s.fileSizeStr 0 (sizeChars ++ [0])
    let fileSize' :=
      match Str2Int fileSizeStr' with
      | some v => v
      | none => s.fileSize
    let s :=
      { s with fileName := fileName', fileSizeStr := fileSizeStr', fileSize := fileSize' }
    let err := cb YMODEM_FILE_CB_NAME s.fileName s.fileSize
    let ret := if err = YMODEM_OK then YM_START_RX else YM_SIZE_ERR
    ({ s with packetsReceived := s.packetsReceived + 1 }, ret,
     [ym_event.fileCb YMODEM_FILE_CB_NAME s.fileName s.fileSize])
  else
    (s, YM_ABORT, [])

/-- `ymodem_ProcessPacket` from `ymodem.c`. -/
def ymodem_ProcessPacket (cb : ym_callback) (s : ymodem_t) :
    ymodem_t × ym_ret_t × List ym_event :=
  if s.eotReceived = 1 then
    (s, YM_SUCCESS, [ym_event.fileCb YMODEM_FILE_CB_END [] 0])
  else if s.packetData.getD YM_PACKET_SEQNO_INDEX 0 % 256 ≠ s.packetsReceived % 256 then
    (s, YM_RX_ERROR, [])
  else if ymodem_CheckCRC s ≠ YM_OK then
    (s, YM_RX_ERROR, [])
  else if s.packetsReceived = 0 then
    ymodem_ProcessFirstPacket cb s
  else
    ymodem_ProcessDataPacket cb s

/-- `ymodem_WriteSerial` from `ymodem.c`: invoke the serial write
function (when configured) on `payloadTx`/`payloadLen`; the observable
effect is the byte sequence handed over. -/
def ymodem_WriteSerial (s : ymodem_t) : List ym_event :=
  if s.serialWriteFxn then [ym_event.serialTx (s.payloadTx.take s.payloadLen)] else []

/-- The framer stage of `ymodem_ReceiveByte` (the `do { ... } while (0)`
body): classify/accumulate one byte, producing the internal return value
and any sink events from packet processing. -/
def ymodem_FrameByte (cb : ym_callback) (s : ymodem_t) (c : Nat) :
    ymodem_t × ym_ret_t × List ym_event :=
  if s.startOfPacket ≠ 0 then
    if c = SOH then
      ({ s with packetSize := YM_PACKET_SIZE, startOfPacket := 0,
                packetBytes := s.packetBytes + 1 }, YM_OK, [])
    else if c = STX then
      ({ s with packetSize := YM_PACKET_1K_SIZE, startOfPacket := 0,
                packetBytes := s.packetBytes + 1 }, YM_OK, [])
    else if c = EOT then
      ({ s with eotReceived := 1 }, YM_RX_COMPLETE, [])
    else if c = CA then
      if s.prevC = CA then (s, YM_ABORTED, []) else (s, YM_OK, [])
    else if c = ABORT1 ∨ c = ABORT2 then
      (s, YM_ABORT, [])
    else
      (s, YM_RX_ERROR, [])
  else
    if s.packetBytes < s.packetSize + YM_PACKET_OVERHEAD - 1 then
      ({ s with packetData := s.packetData.set s.packetBytes c,
                packetBytes := s.packetBytes + 1 }, YM_OK, [])
    else
      let s := { s with packetData := s.packetData.set s.packetBytes c,
                        packetBytes := s.packetBytes + 1 }
      if s.packetData.getD YM_PACKET_SEQNO_INDEX 0 ≠
          ((s.packetData.getD YM_PACKET_SEQNO_COMP_INDEX 0 ^^^ 0xFF) &&& 0xFF) then
        ({ s with startOfPacket := 1, packetBytes := 0 }, YM_RX_ERROR, [])
      else
        let (s, ret, evs) := ymodem_ProcessPacket cb s
        ({ s with startOfPacket := 1, packetBytes := 0 }, ret, evs)

/-- `ymodem_ReceiveByte` from `ymodem.c`.  Returns the new session
state, the returned `ymodem_err_e`, and the trace of collaborator
invocations made during the call. -/
def ymodem_ReceiveByte (cb : ym_callback) (s : ymodem_t) (c : Nat) :
    ymodem_t × ymodem_err_e × List ym_event :=
  let s := (ymodem_init_assert s).1
  if s.nextStatus ≠ YMODEM_OK then (s, s.nextStatus, [])
  else
    let (s, ret, evs) := ymodem_FrameByte cb s c
    let s := { s with prevC := c }
    let (s, genRet) := GenerateResponse s ret
    let evs :=
      evs ++
        match genRet with
        | YMODEM_TX_PENDING => ymodem_WriteSerial s
        | YMODEM_ABORTED => [ym_event.fileCb YMODEM_FILE_CB_ABORTED [] 0]
        | _ => []
    (s, genRet, evs)

/-- Feed a byte sequence (the caller's receive loop): final state,
concatenated event trace, and the list of per-byte return statuses. -/
def ymodem_Feed (cb : ym_callback) : ymodem_t → List Nat → ymodem_t × List ym_event × List ymodem_err_e
  | s, [] => (s, [], [])
  | s, c :: bs =>
    let r := ymodem_ReceiveByte cb s c
    let rest := ymodem_Feed cb r.1 bs
    (rest.1, r.2.2 ++ rest.2.1, r.2.1 :: rest.2.2)

end Ymodem

namespace Ymodem

open ymodem_err_e ymodem_file_cb_e ym_ret_t

/-! ## CRC-16/XMODEM reference (from the spec) and equivalence proof

`xmodemStep` and `crc16_xmodem_ref` follow the spec's words for the
standard CRC-16/XMODEM construction: bit-serial, MSB first, polynomial
0x1021, initial register 0, no flush (the incoming bit is XORed into
the top of the register before the shift).  The theorems below show the
code's `crc16` (LSB insertion followed by a 16-zero-bit flush) computes
exactly this function. -/

/-- Spec reference: one bit step of the standard CRC-16/XMODEM. -/
def xmodemStep (crc : Nat) (bit : Bool) : Nat :=
  let crc := if bit then crc ^^^ 0x8000 else crc
  if crc &&& 0x8000 ≠ 0 then ((crc <<< 1) ^^^ 0x1021) % 65536 else (crc <<< 1) % 65536

/-- The 8 bits of a byte, most significant first. -/
def byteBits (b : Nat) : List Bool :=
  [decide (b &&& 0x80 ≠ 0), decide (b &&& 0x40 ≠ 0), decide (b &&& 0x20 ≠ 0),
   decide (b &&& 0x10 ≠ 0), decide (b &&& 0x08 ≠ 0), decide (b &&& 0x04 ≠ 0),
   decide (b &&& 0x02 ≠ 0), decide (b &&& 0x01 ≠ 0)]

/-- Spec reference: standard CRC-16/XMODEM of a byte sequence. -/
def crc16_xmodem_ref (data : List Nat) : Nat :=
  data.foldl (fun c b => (byteBits b).foldl xmodemStep c) 0

theorem xor_mod_65536 (x y : Nat) : (x ^^^ y) % 65536 = x % 65536 ^^^ y % 65536 := by
  have h : (x ^^^ y) % 2 ^ 16 = x % 2 ^ 16 ^^^ y % 2 ^ 16 := by
    apply Nat.eq_of_testBit_eq
    intro i
    simp only [Nat.testBit_mod_two_pow, Nat.testBit_xor]
    by_cases h : i < 16 <;> simp [h]
  simpa using h

theorem xor_shiftLeft_distrib (x y n : Nat) : (x ^^^ y) <<< n = (x <<< n) ^^^ (y <<< n) := by
  apply Nat.eq_of_testBit_eq
  intro i
  simp only [Nat.testBit_shiftLeft, Nat.testBit_xor]
  by_cases h : n ≤ i <;> simp [h]

theorem xor_shiftRight_distrib (x y n : Nat) : (x ^^^ y) >>> n = (x >>> n) ^^^ (y >>> n) := by
  apply Nat.eq_of_testBit_eq
  intro i
  simp [Nat.testBit_shiftRight, Nat.testBit_xor]

theorem xor_lt_65536 {x y : Nat} (hx : x < 65536) (hy : y < 65536) : x ^^^ y < 65536 := by
  have hx' : x < 2 ^ 16 := by norm_num [hx]
  have hy' : y < 2 ^ 16 := by norm_num [hy]
  have h := @Nat.bitwise_lt bne x y 16 hx' hy'
  have e : x ^^^ y = Nat.bitwise bne x y := rfl
  rw [e]
  norm_num at h
  exact h

theorem shiftRight15_lt_two {x : Nat} (hx : x < 65536) : x >>> 15 = 0 ∨ x >>> 15 = 1 := by
  rw [Nat.shiftRight_eq_div_pow]
  norm_num
  omega

theorem xor_left_comm (a b c : Nat) : a ^^^ (b ^^^ c) = b ^^^ (a ^^^ c) := by
  rw [← Nat.xor_assoc, Nat.xor_comm a b, Nat.xor_assoc]

theorem two_mul_xor_one (m : Nat) : (2 * m) ^^^ 1 = 2 * m + 1 := by
  apply Nat.eq_of_testBit_eq
  intro i
  cases i with
  | zero =>
    simp only [Nat.testBit_zero, Nat.testBit_xor]
    have h1 : 2 * m % 2 = 0 := by omega
    have h2 : (2 * m + 1) % 2 = 1 := by omega
    simp [h1, h2]
  | succ i =>
    rw [Nat.testBit_xor]
    have h4 : (1 : Nat).testBit (i + 1) = false :=
      Nat.testBit_lt_two_pow (Nat.one_lt_two_pow (by omega))
    rw [h4, Bool.xor_false, Nat.testBit_add_one, Nat.testBit_add_one]
    have h1 : 2 * m / 2 = m := by omega
    have h2 : (2 * m + 1) / 2 = m := by omega
    rw [h1, h2]

theorem shiftLeft_one_mod (c : Nat) : (c <<< 1) % 65536 = 2 * (c % 32768) := by
  have h : c <<< 1 = 2 * c := by
    rw [Nat.shiftLeft_eq]
    ring
  rw [h]
  have := Nat.mul_mod_mul_left 2 c 32768
  norm_num at this
  exact this

theorem crc_update_false_eq (c : Nat) :
    crc_update c false = ((c <<< 1) % 65536) ^^^ (if c >>> 15 ≠ 0 then 4129 else 0) := by
  unfold crc_update
  by_cases h : c >>> 15 ≠ 0 <;> simp [h, YM_CRC_POLY]

theorem xor_cancel_left' (a b : Nat) : a ^^^ (a ^^^ b) = b := by
  rw [← Nat.xor_assoc, Nat.xor_self, Nat.zero_xor]

theorem crc_update_true_eq (c : Nat) :
    crc_update c true = crc_update c false ^^^ 1 := by
  rw [crc_update_false_eq]
  unfold crc_update
  simp only [shiftLeft_one_mod c]
  by_cases h : c >>> 15 ≠ 0 <;>
    simp [h, YM_CRC_POLY, ← two_mul_xor_one, Nat.xor_assoc, Nat.xor_comm, xor_left_comm,
          xor_cancel_left']

theorem crc_update_false_lt (c : Nat) : crc_update c false < 65536 := by
  rw [crc_update_false_eq]
  apply xor_lt_65536 (Nat.mod_lt _ (by norm_num))
  split <;> norm_num

theorem crc_update_lt (c : Nat) (b : Bool) : crc_update c b < 65536 := by
  cases b
  · exact crc_update_false_lt c
  · rw [crc_update_true_eq]
    exact xor_lt_65536 (crc_update_false_lt c) (by norm_num)

theorem crc_z_linear {x y : Nat} (hx : x < 65536) (hy : y < 65536) :
    crc_update (x ^^^ y) false = crc_update x false ^^^ crc_update y false := by
  rw [crc_update_false_eq, crc_update_false_eq, crc_update_false_eq]
  rw [xor_shiftLeft_distrib, xor_mod_65536, xor_shiftRight_distrib]
  rcases shiftRight15_lt_two hx with ha | ha <;> rcases shiftRight15_lt_two hy with hb | hb <;>
    simp [ha, hb, Nat.xor_assoc, Nat.xor_comm, xor_left_comm, Nat.xor_self,
          Nat.xor_zero, Nat.zero_xor, xor_cancel_left']

theorem flush_z_comm (c : Nat) :
    crc16_flush (crc_update c false) = crc_update (crc16_flush c) false := by
  unfold crc16_flush
  rw [← Function.iterate_succ_apply, Function.iterate_succ_apply']

theorem flush_lt (c : Nat) : crc16_flush c < 65536 := by
  unfold crc16_flush
  rw [Function.iterate_succ_apply']
  exact crc_update_false_lt _

theorem iterate_z_linear (n : Nat) : ∀ x y, x < 65536 → y < 65536 →
    (fun c => crc_update c false)^[n] (x ^^^ y) =
    (fun c => crc_update c false)^[n] x ^^^ (fun c => crc_update c false)^[n] y := by
  induction n with
  | zero => intro x y _ _; rfl
  | succ n ih =>
    intro x y hx hy
    rw [Function.iterate_succ_apply, Function.iterate_succ_apply, Function.iterate_succ_apply]
    show (fun c => crc_update c false)^[n] (crc_update (x ^^^ y) false) = _
    rw [crc_z_linear hx hy]
    exact ih _ _ (crc_update_false_lt x) (crc_update_false_lt y)

theorem flush_linear {x y : Nat} (hx : x < 65536) (hy : y < 65536) :
    crc16_flush (x ^^^ y) = crc16_flush x ^^^ crc16_flush y :=
  iterate_z_linear 16 x y hx hy

theorem flush_one : crc16_flush 1 = crc_update 32768 false := by decide

theorem flush_zero : crc16_flush 0 = 0 := by decide

theorem xmodemStep_false_eq {d : Nat} (hd : d < 65536) :
    xmodemStep d false = crc_update d false := by
  unfold xmodemStep
  rw [crc_update_false_eq]
  have hred : (if false = true then d ^^^ 32768 else d) = d := rfl
  simp only [hred]
  have hdiv : d >>> 15 = d / 32768 := by
    rw [Nat.shiftRight_eq_div_pow]
  have hand : d &&& 32768 = (d.testBit 15).toNat * 32768 := by
    have h := Nat.and_two_pow d 15
    norm_num at h
    exact h
  have htb : d.testBit 15 = decide (d / 32768 % 2 = 1) := by
    rw [Nat.testBit_to_div_mod]
  rcases shiftRight15_lt_two hd with h | h
  · have h0 : d / 32768 = 0 := hdiv ▸ h
    have htb0 : d.testBit 15 = false := by
      rw [htb, h0]
      rfl
    have hand0 : d &&& 32768 = 0 := by
      rw [hand, htb0]
      norm_num
    simp [hand0, h]
  · have h1 : d / 32768 = 1 := hdiv ▸ h
    have htb1 : d.testBit 15 = true := by
      rw [htb, h1]
      rfl
    have hand1 : d &&& 32768 = 32768 := by
      rw [hand, htb1]
      norm_num
    simp only [hand1, h]
    rw [if_pos (by norm_num : (32768 : Nat) ≠ 0), if_pos (by norm_num : (1 : Nat) ≠ 0),
        xor_mod_65536]

theorem xmodemStep_eq {c : Nat} (hc : c < 65536) (b : Bool) :
    xmodemStep c b = crc_update (c ^^^ (if b then 32768 else 0)) false := by
  cases b
  · have e : (c ^^^ (if false then 32768 else 0)) = c := by simp
    rw [e]
    exact xmodemStep_false_eq hc
  · have e : xmodemStep c true = xmodemStep (c ^^^ 32768) false := rfl
    rw [e, xmodemStep_false_eq (xor_lt_65536 hc (by norm_num))]
    simp

theorem flush_comm_bit (c : Nat) (b : Bool) :
    crc16_flush (crc_update c b) = xmodemStep (crc16_flush c) b := by
  cases b
  · rw [flush_z_comm, xmodemStep_false_eq (flush_lt c)]
  · rw [crc_update_true_eq,
        flush_linear (crc_update_false_lt c) (by norm_num : (1 : Nat) < 65536),
        flush_one, flush_z_comm,
        ← crc_z_linear (flush_lt c) (by norm_num : (32768 : Nat) < 65536),
        xmodemStep_eq (flush_lt c)]
    simp

theorem flush_comm_bits (bits : List Bool) : ∀ c,
    crc16_flush (bits.foldl crc_update c) = bits.foldl xmodemStep (crc16_flush c) := by
  induction bits with
  | nil => intro c; rfl
  | cons b bs ih =>
    intro c
    rw [List.foldl_cons, List.foldl_cons, ih _, flush_comm_bit c b]

theorem crc16_byte_eq_bits (c b : Nat) :
    crc16_byte c b = (byteBits b).foldl crc_update c := rfl

theorem crc16_fold_comm (data : List Nat) : ∀ c,
    crc16_flush (data.foldl crc16_byte c) =
    data.foldl (fun acc b => (byteBits b).foldl xmodemStep acc) (crc16_flush c) := by
  induction data with
  | nil => intro c; rfl
  | cons d ds ih =>
    intro c
    rw [List.foldl_cons, List.foldl_cons, ih _, crc16_byte_eq_bits, flush_comm_bits]

theorem crc16_eq_xmodem_ref (data : List Nat) : crc16 data = crc16_xmodem_ref data := by
  unfold crc16 crc16_xmodem_ref
  rw [crc16_fold_comm data 0, flush_zero]

theorem crc16_lt (data : List Nat) : crc16 data < 65536 := flush_lt _

end Ymodem

namespace Ymodem

open ymodem_err_e ymodem_file_cb_e ym_ret_t

theorem or_shiftLeft8_eq_add {a : Nat} (b : Nat) (ha : a < 256) :
    a ||| (b <<< 8) = 2 ^ 8 * b + a := by
  apply Nat.eq_of_testBit_eq
  intro i
  rw [Nat.testBit_mul_pow_two_add _ (by norm_num [ha] : a < 2 ^ 8)]
  rw [Nat.testBit_or, Nat.testBit_shiftLeft]
  by_cases h : i < 8
  · have h8 : ¬ (8 ≤ i) := by omega
    simp [h, h8]
  · have hle : (256 : Nat) ≤ 2 ^ i := by
      calc (256 : Nat) = 2 ^ 8 := by norm_num
        _ ≤ 2 ^ i := Nat.pow_le_pow_right (by norm_num) (by omega)
    have ha' : a.testBit i = false := Nat.testBit_lt_two_pow (lt_of_lt_of_le ha hle)
    simp [h, (by omega : 8 ≤ i), ha']

theorem and_255_eq_mod (x : Nat) : x &&& 255 = x % 256 := by
  have h := Nat.and_pow_two_sub_one_eq_mod x 8
  norm_num at h
  exact h

theorem shiftRight8_lt_256 {x : Nat} (hx : x < 65536) : x >>> 8 < 256 := by
  rw [Nat.shiftRight_eq_div_pow]
  norm_num
  omega

/-- `ymodem_CheckCRC` characterisation: the packet is accepted exactly
when the two trailing bytes hold the payload CRC big-endian (high byte
at offset `packetSize + 3`, low byte at offset `packetSize + 4`). -/
theorem ymodem_CheckCRC_iff (s : ymodem_t)
    (hsec : s.packetData.getD (s.packetSize + 3) 0 < 256)
    (hlast : s.packetData.getD (s.packetSize + 4) 0 < 256) :
    ymodem_CheckCRC s = YM_OK ↔
      (s.packetData.getD (s.packetSize + 3) 0 =
        crc16 ((s.packetData.drop 3).take s.packetSize) >>> 8 ∧
       s.packetData.getD (s.packetSize + 4) 0 =
        crc16 ((s.packetData.drop 3).take s.packetSize) % 256) := by
  unfold ymodem_CheckCRC SWAP16
  have e1 : s.packetSize + YM_PACKET_OVERHEAD - 1 = s.packetSize + 4 := by
    unfold YM_PACKET_OVERHEAD YM_PACKET_HEADER YM_PACKET_TRAILER
    omega
  have e2 : s.packetSize + YM_PACKET_OVERHEAD - 2 = s.packetSize + 3 := by
    unfold YM_PACKET_OVERHEAD YM_PACKET_HEADER YM_PACKET_TRAILER
    omega
  have e3 : YM_PACKET_HEADER = 3 := rfl
  rw [e1, e2, e3]
  set sec := s.packetData.getD (s.packetSize + 3) 0 with hsecdef
  set last := s.packetData.getD (s.packetSize + 4) 0 with hlastdef
  set crc := crc16 ((s.packetData.drop 3).take s.packetSize) with hcrcdef
  have hc : crc < 65536 := crc16_lt _
  have hhi : crc >>> 8 < 256 := shiftRight8_lt_256 hc
  have hlo : crc % 256 < 256 := Nat.mod_lt _ (by norm_num)
  have hnew : (crc >>> 8 ||| (crc &&& 255) <<< 8) % 65536 = 2 ^ 8 * (crc % 256) + crc >>> 8 := by
    rw [and_255_eq_mod, or_shiftLeft8_eq_add _ hhi]
    apply Nat.mod_eq_of_lt
    omega
  have hsrc : ((last <<< 8) ||| sec) % 65536 = 2 ^ 8 * last + sec := by
    rw [Nat.lor_comm, or_shiftLeft8_eq_add _ hsec]
    apply Nat.mod_eq_of_lt
    omega
  simp only [hnew, hsrc]
  by_cases h : 2 ^ 8 * (crc % 256) + crc >>> 8 = 2 ^ 8 * last + sec
  · rw [if_neg (by omega)]
    constructor
    · intro _
      constructor <;> omega
    · intro _
      rfl
  · rw [if_pos (by omega)]
    constructor
    · intro habs
      cases habs
    · intro hh
      exfalso
      omega

end Ymodem

namespace Ymodem

open ymodem_err_e ymodem_file_cb_e ym_ret_t

/-! ## Witness fixtures -/

/-- A sink that accepts everything. -/
def cbAccept : ym_callback := fun _ _ _ => YMODEM_OK

/-- A freshly initialised session (what `ymodem_Init` produces on a
never-initialised instance, with a non-NULL serial write function). -/
def ymodem_fresh : ymodem_t :=
  ymodem_Init
    { fileName := [], fileSizeStr := [], packetData := [],
      payloadTx := List.replicate 5 0, payloadLen := 0, initialized := 0,
      fileSize := 0, prevC := 0, startOfPacket := 0, eotReceived := 0,
      packetBytes := 0, packetSize := 0, packetsReceived := 0,
      nextStatus := YMODEM_OK, serialWriteFxn := true } true

/-- Sample first-packet payload: the name `file.bin`, NUL, the decimal
size `10`, a space, zero padding to 128 bytes. -/
def wpay : List Nat :=
  [102, 105, 108, 101, 46, 98, 105, 110, 0, 49, 48, 32] ++ List.replicate 116 0

/-- A session state holding a fully assembled valid 128-byte packet
(the CRC trailer bytes are left as the unevaluated CRC expressions). -/
def wstateCRC : ymodem_t :=
  { ymodem_fresh with
      packetData :=
        ([1, 0, 255] ++ wpay) ++
          ([crc16 wpay >>> 8, crc16 wpay % 256] ++ List.replicate 896 0)
      packetSize := 128 }

/-- Claim C2: the checksum routine computes CRC-16/XMODEM: for every
byte sequence it agrees with the standard reference construction
(bit-serial, MSB first, polynomial 0x1021, initial register 0), matching
the catalogue check value 0x31C3 on the standard vector; and
`ymodem_CheckCRC` accepts an assembled packet iff the packet's two
trailing bytes equal that CRC of the payload in big-endian order. -/
theorem claim_C2 :
    (∀ data : List Nat, crc16 data = crc16_xmodem_ref data) ∧
    crc16 [0x31, 0x32, 0x33, 0x34, 0x35, 0x36, 0x37, 0x38, 0x39] = 0x31C3 ∧
    (∀ s : ymodem_t,
      s.packetData.getD (s.packetSize + 3) 0 < 256 →
      s.packetData.getD (s.packetSize + 4) 0 < 256 →
      (ymodem_CheckCRC s = YM_OK ↔
        (s.packetData.getD (s.packetSize + 3) 0 =
          crc16 ((s.packetData.drop 3).take s.packetSize) >>> 8 ∧
         s.packetData.getD (s.packetSize + 4) 0 =
          crc16 ((s.packetData.drop 3).take s.packetSize) % 256))) := by
  refine ⟨crc16_eq_xmodem_ref, ?_, ymodem_CheckCRC_iff⟩
  set_option maxRecDepth 10000 in decide

theorem wstateCRC_getD_hi :
    wstateCRC.packetData.getD (wstateCRC.packetSize + 3) 0 = crc16 wpay >>> 8 := by
  have hlen : ([1, 0, 255] ++ wpay).length = 131 := by simp [wpay]
  show (([1, 0, 255] ++ wpay) ++
      ([crc16 wpay >>> 8, crc16 wpay % 256] ++ List.replicate 896 0)).getD (128 + 3) 0 = _
  rw [List.getD_append_right _ _ _ _ (by rw [hlen]), hlen]
  rfl

theorem wstateCRC_getD_lo :
    wstateCRC.packetData.getD (wstateCRC.packetSize + 4) 0 = crc16 wpay % 256 := by
  have hlen : ([1, 0, 255] ++ wpay).length = 131 := by simp [wpay]
  show (([1, 0, 255] ++ wpay) ++
      ([crc16 wpay >>> 8, crc16 wpay % 256] ++ List.replicate 896 0)).getD (128 + 4) 0 = _
  rw [List.getD_append_right _ _ _ _ (by rw [hlen]; omega), hlen]
  rfl

/-- Witness for C2: the characterisation applied to a concrete
assembled packet, whose hypotheses hold by computation. -/
theorem claim_C2_witness :
    (wstateCRC.packetData.getD (wstateCRC.packetSize + 3) 0 < 256 ∧
     wstateCRC.packetData.getD (wstateCRC.packetSize + 4) 0 < 256) ∧
    (ymodem_CheckCRC wstateCRC = YM_OK ↔
      (wstateCRC.packetData.getD (wstateCRC.packetSize + 3) 0 =
        crc16 ((wstateCRC.packetData.drop 3).take wstateCRC.packetSize) >>> 8 ∧
       wstateCRC.packetData.getD (wstateCRC.packetSize + 4) 0 =
        crc16 ((wstateCRC.packetData.drop 3).take wstateCRC.packetSize) % 256)) :=
  ⟨⟨wstateCRC_getD_hi ▸ shiftRight8_lt_256 (crc16_lt wpay),
    wstateCRC_getD_lo ▸ Nat.mod_lt _ (by norm_num)⟩,
   claim_C2.2.2 wstateCRC
     (wstateCRC_getD_hi ▸ shiftRight8_lt_256 (crc16_lt wpay))
     (wstateCRC_getD_lo ▸ Nat.mod_lt _ (by norm_num))⟩

end Ymodem

namespace Ymodem

open ymodem_err_e ymodem_file_cb_e ym_ret_t

/-! ## Basic properties of `writeFrom` and `ymodem_Feed` -/

theorem writeFrom_length (vs : List Nat) : ∀ (buf : List Nat) (i : Nat),
    (writeFrom buf i vs).length = buf.length := by
  induction vs with
  | nil => intro buf i; rfl
  | cons v vs ih =>
    intro buf i
    show (writeFrom (buf.set i v) (i + 1) vs).length = _
    rw [ih, List.length_set]

/-- Closed form of `writeFrom` for in-range writes. -/
theorem writeFrom_eq (vs : List Nat) : ∀ (buf : List Nat) (i : Nat),
    i + vs.length ≤ buf.length →
    writeFrom buf i vs = buf.take i ++ vs ++ buf.drop (i + vs.length) := by
  induction vs with
  | nil =>
    intro buf i _
    show buf = buf.take i ++ [] ++ buf.drop (i + 0)
    simp [List.take_append_drop]
  | cons v vs ih =>
    intro buf i h
    have hi : i < buf.length := by
      have := h
      simp only [List.length_cons] at this
      omega
    show writeFrom (buf.set i v) (i + 1) vs = _
    rw [ih (buf.set i v) (i + 1)
          (by rw [List.length_set]; simp only [List.length_cons] at h; omega)]
    rw [List.set_eq_take_cons_drop v hi]
    have hlen : (buf.take i).length = i := by
      rw [List.length_take]
      omega
    have htake : (buf.take i ++ v :: buf.drop (i + 1)).take (i + 1) = buf.take i ++ [v] := by
      have e : i + 1 = (buf.take i).length + 1 := by rw [hlen]
      rw [e, List.take_append]
      rfl
    have hdrop : (buf.take i ++ v :: buf.drop (i + 1)).drop (i + 1 + vs.length) =
        buf.drop (i + (vs.length + 1)) := by
      have e : buf.take i ++ v :: buf.drop (i + 1) = (buf.take i ++ [v]) ++ buf.drop (i + 1) := by
        simp
      rw [e]
      have e2 : i + 1 + vs.length = (buf.take i ++ [v]).length + vs.length := by
        simp [hlen]
      rw [e2, List.drop_append, List.drop_drop]
      congr 1
      omega
    rw [htake, hdrop]
    simp

theorem ymodem_Feed_nil (cb : ym_callback) (s : ymodem_t) :
    ymodem_Feed cb s [] = (s, [], []) := rfl

theorem ymodem_Feed_cons (cb : ym_callback) (s : ymodem_t) (c : Nat) (bs : List Nat) :
    ymodem_Feed cb s (c :: bs) =
      ((ymodem_Feed cb (ymodem_ReceiveByte cb s c).1 bs).1,
       (ymodem_ReceiveByte cb s c).2.2 ++ (ymodem_Feed cb (ymodem_ReceiveByte cb s c).1 bs).2.1,
       (ymodem_ReceiveByte cb s c).2.1 :: (ymodem_Feed cb (ymodem_ReceiveByte cb s c).1 bs).2.2) := rfl

theorem ymodem_Feed_append (cb : ym_callback) (xs : List Nat) : ∀ (s : ymodem_t) (ys : List Nat),
    ymodem_Feed cb s (xs ++ ys) =
      ((ymodem_Feed cb (ymodem_Feed cb s xs).1 ys).1,
       (ymodem_Feed cb s xs).2.1 ++ (ymodem_Feed cb (ymodem_Feed cb s xs).1 ys).2.1,
       (ymodem_Feed cb s xs).2.2 ++ (ymodem_Feed cb (ymodem_Feed cb s xs).1 ys).2.2) := by
  induction xs with
  | nil => intro s ys; simp [ymodem_Feed_nil]
  | cons x xs ih =>
    intro s ys
    rw [List.cons_append, ymodem_Feed_cons, ymodem_Feed_cons, ih]
    simp

end Ymodem

namespace Ymodem

open ymodem_err_e ymodem_file_cb_e ym_ret_t

/-! ## Stepping lemmas for `ymodem_ReceiveByte` -/

/-- A mid-packet byte (not the last of the packet) is stored and
acknowledged silently. -/
theorem receive_accum (cb : ym_callback) (s : ymodem_t) (c : Nat)
    (h1 : s.nextStatus = YMODEM_OK) (h2 : s.startOfPacket = 0)
    (h3 : s.packetBytes < s.packetSize + 4) :
    ymodem_ReceiveByte cb s c =
      ({ s with initialized := YM_INSTANCE_INIT_MASK,
                packetData := s.packetData.set s.packetBytes c,
                packetBytes := s.packetBytes + 1,
                prevC := c,
                payloadLen := 0 },
       YMODEM_OK, []) := by
  unfold ymodem_ReceiveByte ymodem_init_assert ymodem_FrameByte GenerateResponse
  have h4 : s.packetBytes < s.packetSize + YM_PACKET_OVERHEAD - 1 := by
    unfold YM_PACKET_OVERHEAD YM_PACKET_HEADER YM_PACKET_TRAILER
    omega
  simp [h1, h2, h4]

end Ymodem

namespace Ymodem

open ymodem_err_e ymodem_file_cb_e ym_ret_t

/-- Feeding a run of mid-packet bytes stores them consecutively with
silent acknowledgement, updating only the buffer, the byte counter and
the previous-byte register. -/
theorem ymodem_Feed_accum (cb : ym_callback) (body : List Nat) : ∀ s : ymodem_t,
    s.nextStatus = YMODEM_OK → s.startOfPacket = 0 →
    s.initialized = YM_INSTANCE_INIT_MASK → s.payloadLen = 0 →
    s.packetBytes + body.length ≤ s.packetSize + 4 →
    ymodem_Feed cb s body =
      ({ s with packetData := writeFrom s.packetData s.packetBytes body,
                packetBytes := s.packetBytes + body.length,
                prevC := body.getLastD s.prevC },
       [], List.replicate body.length YMODEM_OK) := by
  induction body with
  | nil =>
    intro s h1 h2 h3 h4 h5
    rw [ymodem_Feed_nil]
    obtain ⟨fn, fss, pd, ptx, pl, init, fs, pc, sop, eot, pb, ps, pr, ns, swf⟩ := s
    simp [writeFrom]
  | cons c bs ih =>
    intro s h1 h2 h3 h4 h5
    rw [ymodem_Feed_cons, receive_accum cb s c h1 h2 (by simp at h5; omega)]
    rw [ih _ (by simp [h1]) (by simp [h2]) (by simp) (by simp [h4])
          (by simp; simp at h5; omega)]
    rw [List.getLastD_cons]
    obtain ⟨fn, fss, pd, ptx, pl, init, fs, pc, sop, eot, pb, ps, pr, ns, swf⟩ := s
    simp_all [writeFrom, List.replicate_succ]
    omega

end Ymodem


namespace Ymodem

open ymodem_err_e ymodem_file_cb_e ym_ret_t

/-- Writing a snoc equals writing the prefix then setting the last slot. -/
theorem writeFrom_snoc (vs : List Nat) : ∀ (buf : List Nat) (i v : Nat),
    writeFrom buf i (vs ++ [v]) = (writeFrom buf i vs).set (i + vs.length) v := by
  induction vs with
  | nil =>
    intro buf i v
    show writeFrom (buf.set i v) (i + 1) [] = (writeFrom buf i []).set (i + 0) v
    rfl
  | cons x xs ih =>
    intro buf i v
    show writeFrom (buf.set i x) (i + 1) (xs ++ [v]) =
      (writeFrom (buf.set i x) (i + 1) xs).set (i + (x :: xs).length) v
    rw [ih, show i + 1 + xs.length = i + (x :: xs).length from by
      simp only [List.length_cons]
      omega]

/-- The leading byte of a packet: `SOH` or `STX` selects the payload
size, opens body accumulation, and is silently acknowledged. -/
theorem receive_lead (cb : ym_callback) (s : ymodem_t) (lead sz : Nat)
    (hlead : lead = SOH ∧ sz = YM_PACKET_SIZE ∨ lead = STX ∧ sz = YM_PACKET_1K_SIZE)
    (h1 : s.nextStatus = YMODEM_OK) (h2 : s.startOfPacket ≠ 0) :
    ymodem_ReceiveByte cb s lead =
      ({ s with initialized := YM_INSTANCE_INIT_MASK,
                packetSize := sz,
                startOfPacket := 0,
                packetBytes := s.packetBytes + 1,
                prevC := lead,
                payloadLen := 0 },
       YMODEM_OK, []) := by
  unfold ymodem_ReceiveByte ymodem_init_assert ymodem_FrameByte GenerateResponse
  rcases hlead with ⟨hl, hs⟩ | ⟨hl, hs⟩ <;> subst hl <;> subst hs <;>
    simp [SOH, STX, h1, h2]

theorem cons_replicate_append (x : ymodem_err_e) (t : List ymodem_err_e) (n : Nat) :
    x :: (List.replicate n x ++ t) = List.replicate (n + 1) x ++ t := by
  simp [List.replicate_succ]

/-- Feeding a whole packet from a ready state reduces to one
`ymodem_ReceiveByte` call on the state holding everything but the last
byte.  The first `payloadLength + 4` bytes are silently acknowledged. -/
theorem feed_packet (cb : ym_callback) (s : ymodem_t) (lead seq comp hi lo : Nat)
    (payload : List Nat)
    (hlead : lead = SOH ∧ payload.length = YM_PACKET_SIZE ∨
             lead = STX ∧ payload.length = YM_PACKET_1K_SIZE)
    (h1 : s.nextStatus = YMODEM_OK) (h2 : s.startOfPacket = 1) (h3 : s.packetBytes = 0) :
    ymodem_Feed cb s ([lead, seq, comp] ++ payload ++ [hi, lo]) =
      ((ymodem_ReceiveByte cb
          { s with initialized := YM_INSTANCE_INIT_MASK,
                   packetSize := payload.length,
                   startOfPacket := 0,
                   packetBytes := payload.length + 4,
                   prevC := hi,
                   payloadLen := 0,
                   packetData := writeFrom s.packetData 1 ([seq, comp] ++ payload ++ [hi]) }
          lo).1,
       (ymodem_ReceiveByte cb
          { s with initialized := YM_INSTANCE_INIT_MASK,
                   packetSize := payload.length,
                   startOfPacket := 0,
                   packetBytes := payload.length + 4,
                   prevC := hi,
                   payloadLen := 0,
                   packetData := writeFrom s.packetData 1 ([seq, comp] ++ payload ++ [hi]) }
          lo).2.2,
       List.replicate (payload.length + 4) YMODEM_OK ++
         [(ymodem_ReceiveByte cb
            { s with initialized := YM_INSTANCE_INIT_MASK,
                     packetSize := payload.length,
                     startOfPacket := 0,
                     packetBytes := payload.length + 4,
                     prevC := hi,
                     payloadLen := 0,
                     packetData := writeFrom s.packetData 1 ([seq, comp] ++ payload ++ [hi]) }
            lo).2.1]) := by
  have e : [lead, seq, comp] ++ payload ++ [hi, lo] =
      lead :: (([seq, comp] ++ payload ++ [hi]) ++ [lo]) := by
    simp
  rw [e, ymodem_Feed_cons, receive_lead cb s lead payload.length hlead h1 (by rw [h2]; omega)]
  rw [ymodem_Feed_append]
  have hmidlen : ([seq, comp] ++ payload ++ [hi]).length = payload.length + 3 := by
    simp
  rw [ymodem_Feed_accum cb ([seq, comp] ++ payload ++ [hi]) _
        (by simp [h1]) (by simp) (by simp) (by simp)
        (by simp [h3] <;> omega)]
  rw [ymodem_Feed_cons, ymodem_Feed_nil]
  have hlast : ([seq, comp] ++ payload ++ [hi]).getLastD lead = hi := by
    have e2 : [seq, comp] ++ payload ++ [hi] = ([seq, comp] ++ payload) ++ [hi] := by
      simp
    rw [e2, List.getLastD_concat]
  simp only [h3, hmidlen, hlast]
  rw [show (0 : Nat) + 1 = 1 from rfl]
  rw [show (1 : Nat) + (payload.length + 3) = payload.length + 4 from by omega]
  refine Prod.ext rfl (Prod.ext ?_ ?_)
  · simp
  · show _ :: (List.replicate (payload.length + 3) _ ++ _) = _
    rw [cons_replicate_append]

end Ymodem


namespace Ymodem

open ymodem_err_e ymodem_file_cb_e ym_ret_t

/-! ## Reading back an assembled packet buffer

After a full packet `[lead, seq, comp] ++ payload ++ [hi, lo]` has been
assembled, the buffer is `writeFrom pd 1 ([seq, comp] ++ payload ++ [hi, lo])`
(the leading byte is counted but never stored).  The following lemmas
read the header, payload and trailer back out of that buffer. -/

theorem packed_closed_form (pd payload : List Nat) (seq comp hi lo : Nat)
    (hlen : payload.length + 5 ≤ pd.length) :
    writeFrom pd 1 ([seq, comp] ++ payload ++ [hi, lo]) =
      (pd.take 1 ++ ([seq, comp] ++ payload ++ [hi, lo])) ++ pd.drop (payload.length + 5) := by
  have hblen : ([seq, comp] ++ payload ++ [hi, lo]).length = payload.length + 4 := by
    simp
  rw [writeFrom_eq _ _ _ (by rw [hblen]; omega), hblen]
  rw [show 1 + (payload.length + 4) = payload.length + 5 from by omega]

theorem packed_getD_seq (pd payload : List Nat) (seq comp hi lo : Nat)
    (hlen : payload.length + 5 ≤ pd.length) (hpd : 1 ≤ pd.length) :
    (writeFrom pd 1 ([seq, comp] ++ payload ++ [hi, lo])).getD 1 0 = seq := by
  rw [packed_closed_form pd payload seq comp hi lo hlen]
  have htake : (pd.take 1).length = 1 := by
    rw [List.length_take]
    omega
  rw [List.getD_append _ _ _ _ (by simp [htake] <;> omega)]
  rw [List.getD_append_right _ _ _ _ (by rw [htake] : (pd.take 1).length ≤ 1), htake]
  rfl

theorem packed_getD_comp (pd payload : List Nat) (seq comp hi lo : Nat)
    (hlen : payload.length + 5 ≤ pd.length) (hpd : 1 ≤ pd.length) :
    (writeFrom pd 1 ([seq, comp] ++ payload ++ [hi, lo])).getD 2 0 = comp := by
  rw [packed_closed_form pd payload seq comp hi lo hlen]
  have htake : (pd.take 1).length = 1 := by
    rw [List.length_take]
    omega
  rw [List.getD_append _ _ _ _ (by simp [htake] <;> omega)]
  rw [List.getD_append_right _ _ _ _ (by rw [htake]; omega : (pd.take 1).length ≤ 2), htake]
  rfl

theorem packed_drop3 (pd payload : List Nat) (seq comp hi lo : Nat)
    (hlen : payload.length + 5 ≤ pd.length) (hpd : 1 ≤ pd.length) :
    (writeFrom pd 1 ([seq, comp] ++ payload ++ [hi, lo])).drop 3 =
      payload ++ ([hi, lo] ++ pd.drop (payload.length + 5)) := by
  rw [packed_closed_form pd payload seq comp hi lo hlen]
  have e : (pd.take 1 ++ ([seq, comp] ++ payload ++ [hi, lo])) ++ pd.drop (payload.length + 5) =
      (pd.take 1 ++ [seq, comp]) ++ (payload ++ ([hi, lo] ++ pd.drop (payload.length + 5))) := by
    simp [List.append_assoc]
  have h3 : (pd.take 1 ++ [seq, comp]).length = 3 := by
    rw [List.length_append, List.length_take]
    simp
    omega
  rw [e, List.drop_left' h3]

theorem packed_payload (pd payload : List Nat) (seq comp hi lo : Nat)
    (hlen : payload.length + 5 ≤ pd.length) (hpd : 1 ≤ pd.length) :
    ((writeFrom pd 1 ([seq, comp] ++ payload ++ [hi, lo])).drop 3).take payload.length =
      payload := by
  rw [packed_drop3 pd payload seq comp hi lo hlen hpd, List.take_left']
  rfl

theorem packed_getD_hi (pd payload : List Nat) (seq comp hi lo : Nat)
    (hlen : payload.length + 5 ≤ pd.length) (hpd : 1 ≤ pd.length) :
    (writeFrom pd 1 ([seq, comp] ++ payload ++ [hi, lo])).getD (payload.length + 3) 0 = hi := by
  have e3 : (writeFrom pd 1 ([seq, comp] ++ payload ++ [hi, lo])).drop 3 =
      payload ++ ([hi, lo] ++ pd.drop (payload.length + 5)) :=
    packed_drop3 pd payload seq comp hi lo hlen hpd
  have hwlen := writeFrom_length ([seq, comp] ++ payload ++ [hi, lo]) pd 1
  have hgd : (writeFrom pd 1 ([seq, comp] ++ payload ++ [hi, lo])).getD (payload.length + 3) 0 =
      ((writeFrom pd 1 ([seq, comp] ++ payload ++ [hi, lo])).drop 3).getD payload.length 0 := by
    rw [List.getD_eq_getElem?_getD, List.getD_eq_getElem?_getD, List.getElem?_drop]
    rw [show 3 + payload.length = payload.length + 3 from by omega]
  rw [hgd, e3, List.getD_append_right _ _ _ _ (le_refl payload.length)]
  simp

theorem packed_getD_lo (pd payload : List Nat) (seq comp hi lo : Nat)
    (hlen : payload.length + 5 ≤ pd.length) (hpd : 1 ≤ pd.length) :
    (writeFrom pd 1 ([seq, comp] ++ payload ++ [hi, lo])).getD (payload.length + 4) 0 = lo := by
  have e3 : (writeFrom pd 1 ([seq, comp] ++ payload ++ [hi, lo])).drop 3 =
      payload ++ ([hi, lo] ++ pd.drop (payload.length + 5)) :=
    packed_drop3 pd payload seq comp hi lo hlen hpd
  have hgd : (writeFrom pd 1 ([seq, comp] ++ payload ++ [hi, lo])).getD (payload.length + 4) 0 =
      ((writeFrom pd 1 ([seq, comp] ++ payload ++ [hi, lo])).drop 3).getD (payload.length + 1) 0 := by
    rw [List.getD_eq_getElem?_getD, List.getD_eq_getElem?_getD, List.getElem?_drop]
    rw [show 3 + (payload.length + 1) = payload.length + 4 from by omega]
  rw [hgd, e3, List.getD_append_right _ _ _ _ (by omega : payload.length ≤ payload.length + 1)]
  simp

end Ymodem


namespace Ymodem

open ymodem_err_e ymodem_file_cb_e ym_ret_t

theorem take1_set0 (l : List Nat) (a : Nat) (h : 1 ≤ l.length) : (l.set 0 a).take 1 = [a] := by
  cases l with
  | nil => simp at h
  | cons x xs => rfl

theorem take2_set01 (l : List Nat) (a b : Nat) (h : 2 ≤ l.length) :
    ((l.set 0 a).set 1 b).take 2 = [a, b] := by
  cases l with
  | nil => simp at h
  | cons x xs =>
    cases xs with
    | nil => simp at h
    | cons y ys => rfl

/-- Storing the last byte of the packet completes the written block. -/
theorem packed_store_last (pd payload : List Nat) (seq comp hi lo : Nat) :
    (writeFrom pd 1 ([seq, comp] ++ payload ++ [hi])).set (payload.length + 4) lo =
      writeFrom pd 1 ([seq, comp] ++ payload ++ [hi, lo]) := by
  have e : [seq, comp] ++ payload ++ [hi, lo] = ([seq, comp] ++ payload ++ [hi]) ++ [lo] := by
    simp
  rw [e, writeFrom_snoc ([seq, comp] ++ payload ++ [hi]) pd 1 lo,
      show (1 : Nat) + ([seq, comp] ++ payload ++ [hi]).length = payload.length + 4 from by
        simp only [List.length_append, List.length_cons, List.length_nil]
        omega]

/-- `ymodem_CheckCRC` on an assembled packet buffer, phrased against the
packet's own fields. -/
theorem checkCRC_packed (s : ymodem_t) (seq comp hi lo : Nat) (payload : List Nat)
    (hlen : payload.length + 5 ≤ s.packetData.length) (hpd : 1 ≤ s.packetData.length)
    (hhi : hi < 256) (hlo : lo < 256) :
    (ymodem_CheckCRC
      { s with packetSize := payload.length,
               packetData := writeFrom s.packetData 1 ([seq, comp] ++ payload ++ [hi, lo]) }
      = YM_OK) ↔ (hi = crc16 payload >>> 8 ∧ lo = crc16 payload % 256) := by
  have hgHi := packed_getD_hi s.packetData payload seq comp hi lo hlen hpd
  have hgLo := packed_getD_lo s.packetData payload seq comp hi lo hlen hpd
  have hpay := packed_payload s.packetData payload seq comp hi lo hlen hpd
  have hh1 : (writeFrom s.packetData 1 ([seq, comp] ++ payload ++ [hi, lo])).getD
      (payload.length + 3) 0 < 256 := by
    rw [hgHi]
    exact hhi
  have hh2 : (writeFrom s.packetData 1 ([seq, comp] ++ payload ++ [hi, lo])).getD
      (payload.length + 4) 0 < 256 := by
    rw [hgLo]
    exact hlo
  rw [ymodem_CheckCRC_iff _ hh1 hh2]
  show ((writeFrom s.packetData 1 ([seq, comp] ++ payload ++ [hi, lo])).getD (payload.length + 3) 0 =
        crc16 (((writeFrom s.packetData 1 ([seq, comp] ++ payload ++ [hi, lo])).drop 3).take
          payload.length) >>> 8 ∧
      (writeFrom s.packetData 1 ([seq, comp] ++ payload ++ [hi, lo])).getD (payload.length + 4) 0 =
        crc16 (((writeFrom s.packetData 1 ([seq, comp] ++ payload ++ [hi, lo])).drop 3).take
          payload.length) % 256) ↔ _
  rw [hgHi, hgLo, hpay]

end Ymodem


namespace Ymodem

open ymodem_err_e ymodem_file_cb_e ym_ret_t

/-- The last byte of a packet whose complement check passes: the byte is
stored and the packet is handed to `ymodem_ProcessPacket`; afterwards the
framer rearms and the response is generated and dispatched. -/
theorem receive_last_valid (cb : ym_callback) (s : ymodem_t) (c : Nat)
    (h1 : s.nextStatus = YMODEM_OK) (h2 : s.startOfPacket = 0)
    (h3 : s.packetBytes = s.packetSize + 4)
    (hcmp : (s.packetData.set s.packetBytes c).getD 1 0 =
            (((s.packetData.set s.packetBytes c).getD 2 0 ^^^ 0xFF) &&& 0xFF)) :
    ymodem_ReceiveByte cb s c =
      ((GenerateResponse
          { (ymodem_ProcessPacket cb
              { s with initialized := YM_INSTANCE_INIT_MASK,
                       packetData := s.packetData.set s.packetBytes c,
                       packetBytes := s.packetBytes + 1 }).1 with
              startOfPacket := 1, packetBytes := 0, prevC := c }
          (ymodem_ProcessPacket cb
              { s with initialized := YM_INSTANCE_INIT_MASK,
                       packetData := s.packetData.set s.packetBytes c,
                       packetBytes := s.packetBytes + 1 }).2.1).1,
       (GenerateResponse
          { (ymodem_ProcessPacket cb
              { s with initialized := YM_INSTANCE_INIT_MASK,
                       packetData := s.packetData.set s.packetBytes c,
                       packetBytes := s.packetBytes + 1 }).1 with
              startOfPacket := 1, packetBytes := 0, prevC := c }
          (ymodem_ProcessPacket cb
              { s with initialized := YM_INSTANCE_INIT_MASK,
                       packetData := s.packetData.set s.packetBytes c,
                       packetBytes := s.packetBytes + 1 }).2.1).2,
       (ymodem_ProcessPacket cb
          { s with initialized := YM_INSTANCE_INIT_MASK,
                   packetData := s.packetData.set s.packetBytes c,
                   packetBytes := s.packetBytes + 1 }).2.2 ++
         (match
            (GenerateResponse
              { (ymodem_ProcessPacket cb
                  { s with initialized := YM_INSTANCE_INIT_MASK,
                           packetData := s.packetData.set s.packetBytes c,
                           packetBytes := s.packetBytes + 1 }).1 with
                  startOfPacket := 1, packetBytes := 0, prevC := c }
              (ymodem_ProcessPacket cb
                  { s with initialized := YM_INSTANCE_INIT_MASK,
                           packetData := s.packetData.set s.packetBytes c,
                           packetBytes := s.packetBytes + 1 }).2.1).2 with
          | YMODEM_TX_PENDING =>
            ymodem_WriteSerial
              (GenerateResponse
                { (ymodem_ProcessPacket cb
                    { s with initialized := YM_INSTANCE_INIT_MASK,
                             packetData := s.packetData.set s.packetBytes c,
                             packetBytes := s.packetBytes + 1 }).1 with
                    startOfPacket := 1, packetBytes := 0, prevC := c }
                (ymodem_ProcessPacket cb
                    { s with initialized := YM_INSTANCE_INIT_MASK,
                             packetData := s.packetData.set s.packetBytes c,
                             packetBytes := s.packetBytes + 1 }).2.1).1
          | YMODEM_ABORTED => [ym_event.fileCb YMODEM_FILE_CB_ABORTED [] 0]
          | _ => [])) := by
  have hlt : ¬ (s.packetSize + 4 < s.packetSize + YM_PACKET_OVERHEAD - 1) := by
    unfold YM_PACKET_OVERHEAD YM_PACKET_HEADER YM_PACKET_TRAILER
    omega
  rw [h3] at hcmp
  simp at hcmp
  unfold ymodem_ReceiveByte ymodem_init_assert ymodem_FrameByte
  simp [h1, h2, h3, hlt, hcmp, YM_PACKET_SEQNO_INDEX, YM_PACKET_SEQNO_COMP_INDEX]

end Ymodem


namespace Ymodem

open ymodem_err_e ymodem_file_cb_e ym_ret_t

/-- After EOT, the next framing-valid packet closes the session without
any validation. -/
theorem processPacket_eot (cb : ym_callback) (t : ymodem_t) (h : t.eotReceived = 1) :
    ymodem_ProcessPacket cb t = (t, YM_SUCCESS, [ym_event.fileCb YMODEM_FILE_CB_END [] 0]) := by
  unfold ymodem_ProcessPacket
  simp [h]

/-- A sequence-number mismatch is answered with a receive error and no
state change. -/
theorem processPacket_badseq (cb : ym_callback) (t : ymodem_t)
    (heot : t.eotReceived ≠ 1)
    (hseq : t.packetData.getD 1 0 % 256 ≠ t.packetsReceived % 256) :
    ymodem_ProcessPacket cb t = (t, YM_RX_ERROR, []) := by
  unfold ymodem_ProcessPacket
  simp at hseq
  simp [heot, hseq, YM_PACKET_SEQNO_INDEX]

/-- A checksum failure is answered with a receive error and no state
change. -/
theorem processPacket_badcrc (cb : ym_callback) (t : ymodem_t)
    (heot : t.eotReceived ≠ 1)
    (hseq : t.packetData.getD 1 0 % 256 = t.packetsReceived % 256)
    (hcrc : ymodem_CheckCRC t ≠ YM_OK) :
    ymodem_ProcessPacket cb t = (t, YM_RX_ERROR, []) := by
  unfold ymodem_ProcessPacket
  simp at hseq
  simp [heot, hseq, hcrc, YM_PACKET_SEQNO_INDEX]

/-- A validated data packet is handed to the sink and the expected
sequence advances, whatever the sink answers. -/
theorem processPacket_data (cb : ym_callback) (t : ymodem_t)
    (heot : t.eotReceived ≠ 1)
    (hseq : t.packetData.getD 1 0 % 256 = t.packetsReceived % 256)
    (hcrc : ymodem_CheckCRC t = YM_OK)
    (hpr : t.packetsReceived ≠ 0) :
    ymodem_ProcessPacket cb t =
      ({ t with packetsReceived := t.packetsReceived + 1 },
       (if cb YMODEM_FILE_CB_DATA ((t.packetData.drop 3).take t.packetSize) t.packetSize =
           YMODEM_OK then YM_RX_OK else YM_WRITE_ERR),
       [ym_event.fileCb YMODEM_FILE_CB_DATA ((t.packetData.drop 3).take t.packetSize)
          t.packetSize]) := by
  unfold ymodem_ProcessPacket ymodem_ProcessDataPacket
  simp at hseq
  simp [heot, hseq, hcrc, hpr, YM_PACKET_SEQNO_INDEX, YM_PACKET_HEADER]

/-- A validated first packet whose first payload byte is zero requests
an abort and leaves the state unchanged. -/
theorem processPacket_first_zero (cb : ym_callback) (t : ymodem_t)
    (heot : t.eotReceived ≠ 1)
    (hseq : t.packetData.getD 1 0 % 256 = t.packetsReceived % 256)
    (hcrc : ymodem_CheckCRC t = YM_OK)
    (hpr : t.packetsReceived = 0)
    (hz : t.packetData.getD 3 0 = 0) :
    ymodem_ProcessPacket cb t = (t, YM_ABORT, []) := by
  unfold ymodem_ProcessPacket ymodem_ProcessFirstPacket
  simp at hseq hz
  simp [heot, hseq, hcrc, hpr, hz, YM_PACKET_SEQNO_INDEX, YM_PACKET_HEADER]

end Ymodem


namespace Ymodem

open ymodem_err_e ymodem_file_cb_e ym_ret_t

theorem packed_getD_payload0 (pd payload : List Nat) (seq comp hi lo : Nat)
    (hlen : payload.length + 5 ≤ pd.length) (hpd : 1 ≤ pd.length)
    (hpl : 1 ≤ payload.length) :
    (writeFrom pd 1 ([seq, comp] ++ payload ++ [hi, lo])).getD 3 0 = payload.getD 0 0 := by
  have e3 := packed_drop3 pd payload seq comp hi lo hlen hpd
  have hgd : (writeFrom pd 1 ([seq, comp] ++ payload ++ [hi, lo])).getD 3 0 =
      ((writeFrom pd 1 ([seq, comp] ++ payload ++ [hi, lo])).drop 3).getD 0 0 := by
    rw [List.getD_eq_getElem?_getD, List.getD_eq_getElem?_getD, List.getElem?_drop]
  rw [hgd, e3, List.getD_append _ _ _ _ (by omega)]

/-- A validated first packet with a non-empty, NUL-terminated name and a
space-terminated size field: the name and size strings are copied out,
the size is parsed, the sink is consulted and the expected sequence
advances. -/
theorem processPacket_first (cb : ym_callback) (t : ymodem_t)
    (name sizeStr rest : List Nat)
    (heot : t.eotReceived ≠ 1)
    (hseq : t.packetData.getD 1 0 % 256 = t.packetsReceived % 256)
    (hcrc : ymodem_CheckCRC t = YM_OK)
    (hpr : t.packetsReceived = 0)
    (hsrc : t.packetData.drop 3 = name ++ [0] ++ sizeStr ++ [32] ++ rest)
    (hnne : name ≠ [])
    (hname0 : ∀ c ∈ name, c ≠ 0)
    (hnlen : name.length ≤ 255)
    (hs32 : ∀ c ∈ sizeStr, c ≠ 32)
    (hslen : sizeStr.length ≤ 15) :
    ymodem_ProcessPacket cb t =
      ({ t with fileName := writeFrom t.fileName 0 (name ++ [0]),
                fileSizeStr := writeFrom t.fileSizeStr 0 (sizeStr ++ [0]),
                fileSize :=
                  (match Str2Int (writeFrom t.fileSizeStr 0 (sizeStr ++ [0])) with
                   | some v => v
                   | none => t.fileSize),
                packetsReceived := t.packetsReceived + 1 },
       (if cb YMODEM_FILE_CB_NAME (writeFrom t.fileName 0 (name ++ [0]))
            (match Str2Int (writeFrom t.fileSizeStr 0 (sizeStr ++ [0])) with
             | some v => v
             | none => t.fileSize) = YMODEM_OK
        then YM_START_RX else YM_SIZE_ERR),
       [ym_event.fileCb YMODEM_FILE_CB_NAME (writeFrom t.fileName 0 (name ++ [0]))
          (match Str2Int (writeFrom t.fileSizeStr 0 (sizeStr ++ [0])) with
           | some v => v
           | none => t.fileSize)]) := by
  obtain ⟨n0, name', rfl⟩ : ∃ n0 name', name = n0 :: name' := by
    cases name with
    | nil => exact absurd rfl hnne
    | cons a l => exact ⟨a, l, rfl⟩
  have hgd3 : t.packetData.getD 3 0 = n0 := by
    have hgd : t.packetData.getD 3 0 = (t.packetData.drop 3).getD 0 0 := by
      rw [List.getD_eq_getElem?_getD, List.getD_eq_getElem?_getD, List.getElem?_drop]
    rw [hgd, hsrc]
    rfl
  have hn0 : n0 ≠ 0 := hname0 n0 (List.mem_cons_self n0 name')
  have htwname : (n0 :: name').takeWhile (fun c => decide (c ≠ 0)) = n0 :: name' := by
    rw [List.takeWhile_eq_self_iff]
    intro a ha
    simp [hname0 a ha]
  have htwsize : sizeStr.takeWhile (fun c => decide (c ≠ 32)) = sizeStr := by
    rw [List.takeWhile_eq_self_iff]
    intro a ha
    simp [hs32 a ha]
  have hAtw : ((n0 :: name') ++ [0] ++ sizeStr ++ [32] ++ rest).takeWhile
      (fun c => decide (c ≠ 0)) = n0 :: name' := by
    have e : (n0 :: name') ++ [0] ++ sizeStr ++ [32] ++ rest =
        (n0 :: name') ++ ([0] ++ (sizeStr ++ ([32] ++ rest))) := by
      simp
    rw [e, List.takeWhile_append, htwname]
    simp
  have hnameChars : (((n0 :: name') ++ [0] ++ sizeStr ++ [32] ++ rest).takeWhile
      (fun c => decide (c ≠ 0))).take 256 = n0 :: name' := by
    rw [hAtw]
    exact List.take_of_length_le (by omega)
  have hdropA : ((n0 :: name') ++ [0] ++ sizeStr ++ [32] ++ rest).drop ((n0 :: name').length + 1) =
      sizeStr ++ ([32] ++ rest) := by
    have e : (n0 :: name') ++ [0] ++ sizeStr ++ [32] ++ rest =
        ((n0 :: name') ++ [0]) ++ (sizeStr ++ ([32] ++ rest)) := by
      simp
    rw [e, List.drop_left']
    simp
  have hBtw : (sizeStr ++ ([32] ++ rest)).takeWhile (fun c => decide (c ≠ 32)) = sizeStr := by
    rw [List.takeWhile_append, htwsize]
    simp
  have hsizeChars : ((sizeStr ++ ([32] ++ rest)).takeWhile (fun c => decide (c ≠ 32))).take 16 =
      sizeStr := by
    rw [hBtw]
    exact List.take_of_length_le (by omega)
  unfold ymodem_ProcessPacket ymodem_ProcessFirstPacket
  simp only [YM_PACKET_SEQNO_INDEX, YM_PACKET_HEADER, YM_FILE_NAME_LENGTH, YM_FILE_SIZE_LENGTH]
  simp only [hsrc, hnameChars, hdropA, hsizeChars]
  simp at hseq
  simp at hgd3
  simp [heot, hseq, hcrc, hpr, hgd3, hn0]

end Ymodem


namespace Ymodem

open ymodem_err_e ymodem_file_cb_e ym_ret_t

theorem ymodem_CheckCRC_congr (t u : ymodem_t) (h1 : t.packetData = u.packetData)
    (h2 : t.packetSize = u.packetSize) : ymodem_CheckCRC t = ymodem_CheckCRC u := by
  unfold ymodem_CheckCRC
  rw [h1, h2]

/-- Finishing a packet whose complement check passes, from the state
`feed_packet` produces: the completed buffer goes through
`ymodem_ProcessPacket`, the framer rearms, and the response is emitted. -/
theorem receive_finish (cb : ym_callback) (s : ymodem_t) (seq comp hi lo : Nat)
    (payload : List Nat)
    (h1 : s.nextStatus = YMODEM_OK)
    (hcomp : seq = ((comp ^^^ 0xFF) &&& 0xFF))
    (hlen : payload.length + 5 ≤ s.packetData.length) (hpd : 1 ≤ s.packetData.length) :
    ymodem_ReceiveByte cb
      { s with initialized := YM_INSTANCE_INIT_MASK,
               packetSize := payload.length,
               startOfPacket := 0,
               packetBytes := payload.length + 4,
               prevC := hi,
               payloadLen := 0,
               packetData := writeFrom s.packetData 1 ([seq, comp] ++ payload ++ [hi]) }
      lo =
      ((GenerateResponse
          { (ymodem_ProcessPacket cb
              { s with initialized := YM_INSTANCE_INIT_MASK,
                       packetSize := payload.length,
                       startOfPacket := 0,
                       packetBytes := payload.length + 5,
                       prevC := hi,
                       payloadLen := 0,
                       packetData :=
                         writeFrom s.packetData 1 ([seq, comp] ++ payload ++ [hi, lo]) }).1 with
              startOfPacket := 1, packetBytes := 0, prevC := lo }
          (ymodem_ProcessPacket cb
              { s with initialized := YM_INSTANCE_INIT_MASK,
                       packetSize := payload.length,
                       startOfPacket := 0,
                       packetBytes := payload.length + 5,
                       prevC := hi,
                       payloadLen := 0,
                       packetData :=
                         writeFrom s.packetData 1 ([seq, comp] ++ payload ++ [hi, lo]) }).2.1).1,
       (GenerateResponse
          { (ymodem_ProcessPacket cb
              { s with initialized := YM_INSTANCE_INIT_MASK,
                       packetSize := payload.length,
                       startOfPacket := 0,
                       packetBytes := payload.length + 5,
                       prevC := hi,
                       payloadLen := 0,
                       packetData :=
                         writeFrom s.packetData 1 ([seq, comp] ++ payload ++ [hi, lo]) }).1 with
              startOfPacket := 1, packetBytes := 0, prevC := lo }
          (ymodem_ProcessPacket cb
              { s with initialized := YM_INSTANCE_INIT_MASK,
                       packetSize := payload.length,
                       startOfPacket := 0,
                       packetBytes := payload.length + 5,
                       prevC := hi,
                       payloadLen := 0,
                       packetData :=
                         writeFrom s.packetData 1 ([seq, comp] ++ payload ++ [hi, lo]) }).2.1).2,
       (ymodem_ProcessPacket cb
          { s with initialized := YM_INSTANCE_INIT_MASK,
                   packetSize := payload.length,
                   startOfPacket := 0,
                   packetBytes := payload.length + 5,
                   prevC := hi,
                   payloadLen := 0,
                   packetData :=
                     writeFrom s.packetData 1 ([seq, comp] ++ payload ++ [hi, lo]) }).2.2 ++
         (match
            (GenerateResponse
              { (ymodem_ProcessPacket cb
                  { s with initialized := YM_INSTANCE_INIT_MASK,
                           packetSize := payload.length,
                           startOfPacket := 0,
                           packetBytes := payload.length + 5,
                           prevC := hi,
                           payloadLen := 0,
                           packetData :=
                             writeFrom s.packetData 1 ([seq, comp] ++ payload ++ [hi, lo]) }).1 with
                  startOfPacket := 1, packetBytes := 0, prevC := lo }
              (ymodem_ProcessPacket cb
                  { s with initialized := YM_INSTANCE_INIT_MASK,
                           packetSize := payload.length,
                           startOfPacket := 0,
                           packetBytes := payload.length + 5,
                           prevC := hi,
                           payloadLen := 0,
                           packetData :=
                             writeFrom s.packetData 1 ([seq, comp] ++ payload ++ [hi, lo]) }).2.1).2 with
          | YMODEM_TX_PENDING =>
            ymodem_WriteSerial
              (GenerateResponse
                { (ymodem_ProcessPacket cb
                    { s with initialized := YM_INSTANCE_INIT_MASK,
                             packetSize := payload.length,
                             startOfPacket := 0,
                             packetBytes := payload.length + 5,
                             prevC := hi,
                             payloadLen := 0,
                             packetData :=
                               writeFrom s.packetData 1 ([seq, comp] ++ payload ++ [hi, lo]) }).1 with
                    startOfPacket := 1, packetBytes := 0, prevC := lo }
                (ymodem_ProcessPacket cb
                    { s with initialized := YM_INSTANCE_INIT_MASK,
                             packetSize := payload.length,
                             startOfPacket := 0,
                             packetBytes := payload.length + 5,
                             prevC := hi,
                             payloadLen := 0,
                             packetData :=
                               writeFrom s.packetData 1 ([seq, comp] ++ payload ++ [hi, lo]) }).2.1).1
          | YMODEM_ABORTED => [ym_event.fileCb YMODEM_FILE_CB_ABORTED [] 0]
          | _ => [])) := by
  have hstore := packed_store_last s.packetData payload seq comp hi lo
  have hsq := packed_getD_seq s.packetData payload seq comp hi lo hlen hpd
  have hcp := packed_getD_comp s.packetData payload seq comp hi lo hlen hpd
  have hcmp : ((writeFrom s.packetData 1 ([seq, comp] ++ payload ++ [hi])).set
      (payload.length + 4) lo).getD 1 0 =
      ((((writeFrom s.packetData 1 ([seq, comp] ++ payload ++ [hi])).set
        (payload.length + 4) lo).getD 2 0 ^^^ 0xFF) &&& 0xFF) := by
    rw [hstore, hsq, hcp]
    exact hcomp
  rw [receive_last_valid cb _ lo (by simp [h1]) (by simp) (by simp) (by simpa using hcmp)]
  simp only [hstore]

end Ymodem

namespace Ymodem

open ymodem_err_e ymodem_file_cb_e ym_ret_t

/-- Feeding an assembled, framing-valid packet whose sequence or
checksum is wrong: the reply is a single NAK, no sticky status is set,
and the expected-sequence counter is unchanged. -/
theorem feed_bad (cb : ym_callback) (s : ymodem_t) (lead seq comp hi lo : Nat)
    (payload : List Nat)
    (hlead : lead = SOH ∧ payload.length = YM_PACKET_SIZE ∨
             lead = STX ∧ payload.length = YM_PACKET_1K_SIZE)
    (h1 : s.nextStatus = YMODEM_OK) (h2 : s.startOfPacket = 1) (h3 : s.packetBytes = 0)
    (hcomp : seq = ((comp ^^^ 0xFF) &&& 0xFF))
    (heot : s.eotReceived ≠ 1)
    (hlen : payload.length + 5 ≤ s.packetData.length) (hpd : 1 ≤ s.packetData.length)
    (hptx : 1 ≤ s.payloadTx.length)
    (hhi : hi < 256) (hlo : lo < 256)
    (hbad : seq % 256 ≠ s.packetsReceived % 256 ∨
            ¬ (hi = crc16 payload >>> 8 ∧ lo = crc16 payload % 256)) :
    ymodem_Feed cb s ([lead, seq, comp] ++ payload ++ [hi, lo]) =
      ({ s with initialized := YM_INSTANCE_INIT_MASK,
                packetSize := payload.length,
                startOfPacket := 1,
                packetBytes := 0,
                prevC := lo,
                payloadLen := 1,
                payloadTx := s.payloadTx.set 0 NAK,
                packetData := writeFrom s.packetData 1 ([seq, comp] ++ payload ++ [hi, lo]) },
       (if s.serialWriteFxn then [ym_event.serialTx [NAK]] else []),
       List.replicate (payload.length + 4) YMODEM_OK ++ [YMODEM_TX_PENDING]) := by
  rw [feed_packet cb s lead seq comp hi lo payload hlead h1 h2 h3]
  rw [receive_finish cb s seq comp hi lo payload h1 hcomp hlen hpd]
  have hsq := packed_getD_seq s.packetData payload seq comp hi lo hlen hpd
  have hP : ymodem_ProcessPacket cb { s with initialized := YM_INSTANCE_INIT_MASK, packetSize := payload.length, startOfPacket := 0, packetBytes := payload.length + 5, prevC := hi, payloadLen := 0, packetData := writeFrom s.packetData 1 ([seq, comp] ++ payload ++ [hi, lo]) } = ({ s with initialized := YM_INSTANCE_INIT_MASK, packetSize := payload.length, startOfPacket := 0, packetBytes := payload.length + 5, prevC := hi, payloadLen := 0, packetData := writeFrom s.packetData 1 ([seq, comp] ++ payload ++ [hi, lo]) }, YM_RX_ERROR, []) := by
    by_cases hs : seq % 256 = s.packetsReceived % 256
    · have hcb : ¬ (hi = crc16 payload >>> 8 ∧ lo = crc16 payload % 256) := by
        rcases hbad with hb | hb
        · exact absurd hs hb
        · exact hb
      apply processPacket_badcrc
      · simpa using heot
      · show (writeFrom s.packetData 1 ([seq, comp] ++ payload ++ [hi, lo])).getD 1 0 % 256 =
            s.packetsReceived % 256
        rw [hsq]
        exact hs
      · have e := ymodem_CheckCRC_congr { s with initialized := YM_INSTANCE_INIT_MASK, packetSize := payload.length, startOfPacket := 0, packetBytes := payload.length + 5, prevC := hi, payloadLen := 0, packetData := writeFrom s.packetData 1 ([seq, comp] ++ payload ++ [hi, lo]) } { s with packetSize := payload.length, packetData := writeFrom s.packetData 1 ([seq, comp] ++ payload ++ [hi, lo]) } rfl rfl
        rw [e, ne_eq, checkCRC_packed s seq comp hi lo payload hlen hpd hhi hlo]
        exact hcb
    · apply processPacket_badseq
      · simpa using heot
      · show ¬ ((writeFrom s.packetData 1 ([seq, comp] ++ payload ++ [hi, lo])).getD 1 0 % 256 =
            s.packetsReceived % 256)
        rw [hsq]
        exact hs
  rw [hP]
  have htx : (s.payloadTx.set 0 NAK).take 1 = [NAK] := take1_set0 s.payloadTx NAK hptx
  simp [GenerateResponse, ymodem_WriteSerial, htx]

end Ymodem

namespace Ymodem

open ymodem_err_e ymodem_file_cb_e ym_ret_t

/-- Feeding a well-formed first packet (sequence 0, valid complement and
CRC, non-zero leading payload byte) from a fresh session whose sink
accepts the metadata: the name callback fires with the copied filename
buffer and the parsed size, the expected sequence advances to 1, and the
reply is ACK followed by the CRC-mode byte. -/
theorem feed_first_ok (cb : ym_callback) (s : ymodem_t) (lead seq comp hi lo : Nat)
    (payload name sizeStr rest : List Nat)
    (hlead : lead = SOH ∧ payload.length = YM_PACKET_SIZE ∨
             lead = STX ∧ payload.length = YM_PACKET_1K_SIZE)
    (h1 : s.nextStatus = YMODEM_OK) (h2 : s.startOfPacket = 1) (h3 : s.packetBytes = 0)
    (hcomp : seq = ((comp ^^^ 0xFF) &&& 0xFF))
    (hseqm : seq % 256 = s.packetsReceived % 256)
    (hpr0 : s.packetsReceived = 0)
    (heot : s.eotReceived ≠ 1)
    (hlen : payload.length + 5 ≤ s.packetData.length) (hpd : 1 ≤ s.packetData.length)
    (hptx : 2 ≤ s.payloadTx.length)
    (hcrcHi : hi = crc16 payload >>> 8) (hcrcLo : lo = crc16 payload % 256)
    (hpay : payload = name ++ [0] ++ sizeStr ++ [32] ++ rest)
    (hnne : name ≠ [])
    (hname0 : ∀ c ∈ name, c ≠ 0)
    (hnlen : name.length ≤ 255)
    (hs32 : ∀ c ∈ sizeStr, c ≠ 32)
    (hslen : sizeStr.length ≤ 15)
    (hcb : cb YMODEM_FILE_CB_NAME (writeFrom s.fileName 0 (name ++ [0]))
        (match Str2Int (writeFrom s.fileSizeStr 0 (sizeStr ++ [0])) with
         | some v => v
         | none => s.fileSize) = YMODEM_OK) :
    ymodem_Feed cb s ([lead, seq, comp] ++ payload ++ [hi, lo]) =
      ({ s with initialized := YM_INSTANCE_INIT_MASK,
                packetSize := payload.length,
                startOfPacket := 1,
                packetBytes := 0,
                prevC := lo,
                payloadLen := 2,
                payloadTx := (s.payloadTx.set 0 ACK).set 1 CRC16,
                packetData := writeFrom s.packetData 1 ([seq, comp] ++ payload ++ [hi, lo]),
                fileName := writeFrom s.fileName 0 (name ++ [0]),
                fileSizeStr := writeFrom s.fileSizeStr 0 (sizeStr ++ [0]),
                fileSize :=
                  (match Str2Int (writeFrom s.fileSizeStr 0 (sizeStr ++ [0])) with
                   | some v => v
                   | none => s.fileSize),
                packetsReceived := 1 },
       [ym_event.fileCb YMODEM_FILE_CB_NAME (writeFrom s.fileName 0 (name ++ [0]))
          (match Str2Int (writeFrom s.fileSizeStr 0 (sizeStr ++ [0])) with
           | some v => v
           | none => s.fileSize)] ++
         (if s.serialWriteFxn then [ym_event.serialTx [ACK, CRC16]] else []),
       List.replicate (payload.length + 4) YMODEM_OK ++ [YMODEM_TX_PENDING]) := by
  rw [feed_packet cb s lead seq comp hi lo payload hlead h1 h2 h3]
  rw [receive_finish cb s seq comp hi lo payload h1 hcomp hlen hpd]
  have hsq := packed_getD_seq s.packetData payload seq comp hi lo hlen hpd
  have hhi : hi < 256 := by
    rw [hcrcHi]
    exact shiftRight8_lt_256 (crc16_lt _)
  have hlo' : lo < 256 := by
    rw [hcrcLo]
    exact Nat.mod_lt _ (by norm_num)
  have hcrcok : ymodem_CheckCRC { s with initialized := YM_INSTANCE_INIT_MASK, packetSize := payload.length, startOfPacket := 0, packetBytes := payload.length + 5, prevC := hi, payloadLen := 0, packetData := writeFrom s.packetData 1 ([seq, comp] ++ payload ++ [hi, lo]) } = YM_OK := by
    have e := ymodem_CheckCRC_congr { s with initialized := YM_INSTANCE_INIT_MASK, packetSize := payload.length, startOfPacket := 0, packetBytes := payload.length + 5, prevC := hi, payloadLen := 0, packetData := writeFrom s.packetData 1 ([seq, comp] ++ payload ++ [hi, lo]) } { s with packetSize := payload.length, packetData := writeFrom s.packetData 1 ([seq, comp] ++ payload ++ [hi, lo]) } rfl rfl
    rw [e, checkCRC_packed s seq comp hi lo payload hlen hpd hhi hlo']
    exact ⟨hcrcHi, hcrcLo⟩
  have hsrc : (writeFrom s.packetData 1 ([seq, comp] ++ payload ++ [hi, lo])).drop 3 =
      name ++ [0] ++ sizeStr ++ [32] ++
        (rest ++ ([hi, lo] ++ s.packetData.drop (payload.length + 5))) := by
    rw [packed_drop3 s.packetData payload seq comp hi lo hlen hpd, hpay]
    simp [List.append_assoc]
  have hP := processPacket_first cb { s with initialized := YM_INSTANCE_INIT_MASK, packetSize := payload.length, startOfPacket := 0, packetBytes := payload.length + 5, prevC := hi, payloadLen := 0, packetData := writeFrom s.packetData 1 ([seq, comp] ++ payload ++ [hi, lo]) } name sizeStr
    (rest ++ ([hi, lo] ++ s.packetData.drop (payload.length + 5)))
    (by simpa using heot)
    (by show (writeFrom s.packetData 1 ([seq, comp] ++ payload ++ [hi, lo])).getD 1 0 % 256 =
          s.packetsReceived % 256
        rw [hsq]
        exact hseqm)
    hcrcok
    (by simpa using hpr0)
    (by simpa using hsrc)
    hnne hname0 hnlen hs32 hslen
  rw [hP]
  have htx : ((s.payloadTx.set 0 ACK).set 1 CRC16).take 2 = [ACK, CRC16] :=
    take2_set01 s.payloadTx ACK CRC16 hptx
  simp [GenerateResponse, ymodem_WriteSerial, htx, hcb, hpr0]

end Ymodem

namespace Ymodem

open ymodem_err_e ymodem_file_cb_e ym_ret_t

/-- Feeding a well-formed data packet (expected sequence, valid
complement and CRC) into a ready session whose sink accepts the data:
the data callback receives exactly the declared payload, the expected
sequence advances by one, and the reply is a single ACK byte. -/
theorem feed_data_ok (cb : ym_callback) (s : ymodem_t) (lead seq comp hi lo : Nat)
    (payload : List Nat)
    (hlead : lead = SOH ∧ payload.length = YM_PACKET_SIZE ∨
             lead = STX ∧ payload.length = YM_PACKET_1K_SIZE)
    (h1 : s.nextStatus = YMODEM_OK) (h2 : s.startOfPacket = 1) (h3 : s.packetBytes = 0)
    (hcomp : seq = ((comp ^^^ 0xFF) &&& 0xFF))
    (hseqm : seq % 256 = s.packetsReceived % 256)
    (hpr : s.packetsReceived ≠ 0)
    (heot : s.eotReceived ≠ 1)
    (hlen : payload.length + 5 ≤ s.packetData.length) (hpd : 1 ≤ s.packetData.length)
    (hptx : 1 ≤ s.payloadTx.length)
    (hcrcHi : hi = crc16 payload >>> 8) (hcrcLo : lo = crc16 payload % 256)
    (hcb : cb YMODEM_FILE_CB_DATA payload payload.length = YMODEM_OK) :
    ymodem_Feed cb s ([lead, seq, comp] ++ payload ++ [hi, lo]) =
      ({ s with initialized := YM_INSTANCE_INIT_MASK,
                packetSize := payload.length,
                startOfPacket := 1,
                packetBytes := 0,
                prevC := lo,
                payloadLen := 1,
                payloadTx := s.payloadTx.set 0 ACK,
                packetData := writeFrom s.packetData 1 ([seq, comp] ++ payload ++ [hi, lo]),
                packetsReceived := s.packetsReceived + 1 },
       [ym_event.fileCb YMODEM_FILE_CB_DATA payload payload.length] ++
         (if s.serialWriteFxn then [ym_event.serialTx [ACK]] else []),
       List.replicate (payload.length + 4) YMODEM_OK ++ [YMODEM_TX_PENDING]) := by
  rw [feed_packet cb s lead seq comp hi lo payload hlead h1 h2 h3]
  rw [receive_finish cb s seq comp hi lo payload h1 hcomp hlen hpd]
  have hsq := packed_getD_seq s.packetData payload seq comp hi lo hlen hpd
  have hhi : hi < 256 := by
    rw [hcrcHi]
    exact shiftRight8_lt_256 (crc16_lt _)
  have hlo' : lo < 256 := by
    rw [hcrcLo]
    exact Nat.mod_lt _ (by norm_num)
  have hcrcok : ymodem_CheckCRC { s with initialized := YM_INSTANCE_INIT_MASK, packetSize := payload.length, startOfPacket := 0, packetBytes := payload.length + 5, prevC := hi, payloadLen := 0, packetData := writeFrom s.packetData 1 ([seq, comp] ++ payload ++ [hi, lo]) } = YM_OK := by
    have e := ymodem_CheckCRC_congr { s with initialized := YM_INSTANCE_INIT_MASK, packetSize := payload.length, startOfPacket := 0, packetBytes := payload.length + 5, prevC := hi, payloadLen := 0, packetData := writeFrom s.packetData 1 ([seq, comp] ++ payload ++ [hi, lo]) } { s with packetSize := payload.length, packetData := writeFrom s.packetData 1 ([seq, comp] ++ payload ++ [hi, lo]) } rfl rfl
    rw [e, checkCRC_packed s seq comp hi lo payload hlen hpd hhi hlo']
    exact ⟨hcrcHi, hcrcLo⟩
  have hpayl := packed_payload s.packetData payload seq comp hi lo hlen hpd
  have hP := processPacket_data cb { s with initialized := YM_INSTANCE_INIT_MASK, packetSize := payload.length, startOfPacket := 0, packetBytes := payload.length + 5, prevC := hi, payloadLen := 0, packetData := writeFrom s.packetData 1 ([seq, comp] ++ payload ++ [hi, lo]) }
    (by simpa using heot)
    (by show (writeFrom s.packetData 1 ([seq, comp] ++ payload ++ [hi, lo])).getD 1 0 % 256 =
          s.packetsReceived % 256
        rw [hsq]
        exact hseqm)
    hcrcok
    (by simpa using hpr)
  rw [hP]
  have htx : (s.payloadTx.set 0 ACK).take 1 = [ACK] := take1_set0 s.payloadTx ACK hptx
  simp only [show { s with initialized := YM_INSTANCE_INIT_MASK, packetSize := payload.length, startOfPacket := 0, packetBytes := payload.length + 5, prevC := hi, payloadLen := 0, packetData := writeFrom s.packetData 1 ([seq, comp] ++ payload ++ [hi, lo]) }.packetData = writeFrom s.packetData 1 ([seq, comp] ++ payload ++ [hi, lo]) from rfl,
    show { s with initialized := YM_INSTANCE_INIT_MASK, packetSize := payload.length, startOfPacket := 0, packetBytes := payload.length + 5, prevC := hi, payloadLen := 0, packetData := writeFrom s.packetData 1 ([seq, comp] ++ payload ++ [hi, lo]) }.packetSize = payload.length from rfl] at hP ⊢
  rw [hpayl]
  simp [GenerateResponse, ymodem_WriteSerial, htx, hcb]

end Ymodem

namespace Ymodem

open ymodem_err_e ymodem_file_cb_e ym_ret_t

/-- Feeding a validated first packet (sequence 0) whose first payload
byte is zero: the session aborts — the reply is two cancel bytes, the
sticky status becomes aborted, and no callback fires. -/
theorem feed_first_zero (cb : ym_callback) (s : ymodem_t) (lead seq comp hi lo : Nat)
    (payload : List Nat)
    (hlead : lead = SOH ∧ payload.length = YM_PACKET_SIZE ∨
             lead = STX ∧ payload.length = YM_PACKET_1K_SIZE)
    (h1 : s.nextStatus = YMODEM_OK) (h2 : s.startOfPacket = 1) (h3 : s.packetBytes = 0)
    (hcomp : seq = ((comp ^^^ 0xFF) &&& 0xFF))
    (hseqm : seq % 256 = s.packetsReceived % 256)
    (hpr0 : s.packetsReceived = 0)
    (heot : s.eotReceived ≠ 1)
    (hlen : payload.length + 5 ≤ s.packetData.length) (hpd : 1 ≤ s.packetData.length)
    (hptx : 2 ≤ s.payloadTx.length)
    (hcrcHi : hi = crc16 payload >>> 8) (hcrcLo : lo = crc16 payload % 256)
    (hpl : 1 ≤ payload.length)
    (hz : payload.getD 0 0 = 0) :
    ymodem_Feed cb s ([lead, seq, comp] ++ payload ++ [hi, lo]) =
      ({ s with initialized := YM_INSTANCE_INIT_MASK,
                packetSize := payload.length,
                startOfPacket := 1,
                packetBytes := 0,
                prevC := lo,
                payloadLen := 2,
                payloadTx := (s.payloadTx.set 0 CA).set 1 CA,
                nextStatus := YMODEM_ABORTED,
                packetsReceived := 0,
                packetData := writeFrom s.packetData 1 ([seq, comp] ++ payload ++ [hi, lo]) },
       (if s.serialWriteFxn then [ym_event.serialTx [CA, CA]] else []),
       List.replicate (payload.length + 4) YMODEM_OK ++ [YMODEM_TX_PENDING]) := by
  rw [feed_packet cb s lead seq comp hi lo payload hlead h1 h2 h3]
  rw [receive_finish cb s seq comp hi lo payload h1 hcomp hlen hpd]
  have hsq := packed_getD_seq s.packetData payload seq comp hi lo hlen hpd
  have hhi : hi < 256 := by
    rw [hcrcHi]
    exact shiftRight8_lt_256 (crc16_lt _)
  have hlo' : lo < 256 := by
    rw [hcrcLo]
    exact Nat.mod_lt _ (by norm_num)
  have hcrcok : ymodem_CheckCRC { s with initialized := YM_INSTANCE_INIT_MASK, packetSize := payload.length, startOfPacket := 0, packetBytes := payload.length + 5, prevC := hi, payloadLen := 0, packetData := writeFrom s.packetData 1 ([seq, comp] ++ payload ++ [hi, lo]) } = YM_OK := by
    have e := ymodem_CheckCRC_congr { s with initialized := YM_INSTANCE_INIT_MASK, packetSize := payload.length, startOfPacket := 0, packetBytes := payload.length + 5, prevC := hi, payloadLen := 0, packetData := writeFrom s.packetData 1 ([seq, comp] ++ payload ++ [hi, lo]) } { s with packetSize := payload.length, packetData := writeFrom s.packetData 1 ([seq, comp] ++ payload ++ [hi, lo]) } rfl rfl
    rw [e, checkCRC_packed s seq comp hi lo payload hlen hpd hhi hlo']
    exact ⟨hcrcHi, hcrcLo⟩
  have hg0 := packed_getD_payload0 s.packetData payload seq comp hi lo hlen hpd hpl
  have hP := processPacket_first_zero cb { s with initialized := YM_INSTANCE_INIT_MASK, packetSize := payload.length, startOfPacket := 0, packetBytes := payload.length + 5, prevC := hi, payloadLen := 0, packetData := writeFrom s.packetData 1 ([seq, comp] ++ payload ++ [hi, lo]) }
    (by simpa using heot)
    (by show (writeFrom s.packetData 1 ([seq, comp] ++ payload ++ [hi, lo])).getD 1 0 % 256 =
          s.packetsReceived % 256
        rw [hsq]
        exact hseqm)
    hcrcok
    (by simpa using hpr0)
    (by show (writeFrom s.packetData 1 ([seq, comp] ++ payload ++ [hi, lo])).getD 3 0 = 0
        rw [hg0]
        exact hz)
  rw [hP]
  have htx : ((s.payloadTx.set 0 CA).set 1 CA).take 2 = [CA, CA] :=
    take2_set01 s.payloadTx CA CA hptx
  simp [GenerateResponse, ymodem_Abort, ymodem_init_assert, ymodem_WriteSerial, htx]

/-- A lone EOT byte in the awaiting-header state: the EOT flag is set
and the reply is ACK followed by the CRC-mode byte. -/
theorem receive_eot (cb : ym_callback) (s : ymodem_t)
    (h1 : s.nextStatus = YMODEM_OK) (h2 : s.startOfPacket ≠ 0)
    (hptx : 2 ≤ s.payloadTx.length) :
    ymodem_ReceiveByte cb s EOT =
      ({ s with initialized := YM_INSTANCE_INIT_MASK,
                eotReceived := 1,
                prevC := EOT,
                payloadLen := 2,
                payloadTx := (s.payloadTx.set 0 ACK).set 1 CRC16 },
       YMODEM_TX_PENDING,
       (if s.serialWriteFxn then [ym_event.serialTx [ACK, CRC16]] else [])) := by
  have htx : ((s.payloadTx.set 0 ACK).set 1 CRC16).take 2 = [ACK, CRC16] :=
    take2_set01 s.payloadTx ACK CRC16 hptx
  unfold ymodem_ReceiveByte ymodem_init_assert ymodem_FrameByte GenerateResponse
    ymodem_WriteSerial
  simp [h1, h2, SOH, STX, EOT, htx]

/-- After the EOT flag is set, the next framing-valid packet skips
sequence and CRC validation entirely: the end callback fires, the reply
is a single ACK, and the sticky status becomes complete. -/
theorem feed_eot_close (cb : ym_callback) (s : ymodem_t) (lead seq comp hi lo : Nat)
    (payload : List Nat)
    (hlead : lead = SOH ∧ payload.length = YM_PACKET_SIZE ∨
             lead = STX ∧ payload.length = YM_PACKET_1K_SIZE)
    (h1 : s.nextStatus = YMODEM_OK) (h2 : s.startOfPacket = 1) (h3 : s.packetBytes = 0)
    (hcomp : seq = ((comp ^^^ 0xFF) &&& 0xFF))
    (heot : s.eotReceived = 1)
    (hlen : payload.length + 5 ≤ s.packetData.length) (hpd : 1 ≤ s.packetData.length)
    (hptx : 1 ≤ s.payloadTx.length) :
    ymodem_Feed cb s ([lead, seq, comp] ++ payload ++ [hi, lo]) =
      ({ s with initialized := YM_INSTANCE_INIT_MASK,
                packetSize := payload.length,
                startOfPacket := 1,
                packetBytes := 0,
                prevC := lo,
                payloadLen := 1,
                payloadTx := s.payloadTx.set 0 ACK,
                nextStatus := YMODEM_COMPLETE,
                packetData := writeFrom s.packetData 1 ([seq, comp] ++ payload ++ [hi, lo]) },
       [ym_event.fileCb YMODEM_FILE_CB_END [] 0] ++
         (if s.serialWriteFxn then [ym_event.serialTx [ACK]] else []),
       List.replicate (payload.length + 4) YMODEM_OK ++ [YMODEM_TX_PENDING]) := by
  rw [feed_packet cb s lead seq comp hi lo payload hlead h1 h2 h3]
  rw [receive_finish cb s seq comp hi lo payload h1 hcomp hlen hpd]
  have hP := processPacket_eot cb { s with initialized := YM_INSTANCE_INIT_MASK, packetSize := payload.length, startOfPacket := 0, packetBytes := payload.length + 5, prevC := hi, payloadLen := 0, packetData := writeFrom s.packetData 1 ([seq, comp] ++ payload ++ [hi, lo]) } (by simpa using heot)
  rw [hP]
  have htx : (s.payloadTx.set 0 ACK).take 1 = [ACK] := take1_set0 s.payloadTx ACK hptx
  simp [GenerateResponse, ymodem_WriteSerial, htx]

end Ymodem

namespace Ymodem

open ymodem_err_e ymodem_file_cb_e ym_ret_t

/-- Once the sticky status is non-nominal, every call returns it with no
callback and no serial write; the only state change is the assert
storing the init mask. -/
theorem receive_sticky (cb : ym_callback) (s : ymodem_t) (c : Nat)
    (h : s.nextStatus ≠ YMODEM_OK) :
    ymodem_ReceiveByte cb s c =
      ({ s with initialized := YM_INSTANCE_INIT_MASK }, s.nextStatus, []) := by
  unfold ymodem_ReceiveByte ymodem_init_assert
  simp [h]

/-- A cancel byte right after another cancel byte, in the awaiting-header
state: the reply is the single CRC-mode byte and the sticky status
becomes aborted. -/
theorem receive_cancel2 (cb : ym_callback) (s : ymodem_t)
    (h1 : s.nextStatus = YMODEM_OK) (h2 : s.startOfPacket ≠ 0)
    (hprev : s.prevC = CA) (hptx : 1 ≤ s.payloadTx.length) :
    ymodem_ReceiveByte cb s CA =
      ({ s with initialized := YM_INSTANCE_INIT_MASK,
                prevC := CA,
                payloadLen := 1,
                payloadTx := s.payloadTx.set 0 CRC16,
                nextStatus := YMODEM_ABORTED },
       YMODEM_TX_PENDING,
       (if s.serialWriteFxn then [ym_event.serialTx [CRC16]] else [])) := by
  have htx : (s.payloadTx.set 0 CRC16).take 1 = [CRC16] := take1_set0 s.payloadTx CRC16 hptx
  unfold ymodem_ReceiveByte ymodem_init_assert ymodem_FrameByte GenerateResponse
    ymodem_WriteSerial
  simp [h1, h2, hprev, SOH, STX, EOT, CA, htx]

/-- A cancel byte whose predecessor was not a cancel byte: no outbound
bytes, a nominal outcome, and the byte is recorded as the previous
byte. -/
theorem receive_cancel1 (cb : ym_callback) (s : ymodem_t)
    (h1 : s.nextStatus = YMODEM_OK) (h2 : s.startOfPacket ≠ 0)
    (hprev : s.prevC ≠ CA) :
    ymodem_ReceiveByte cb s CA =
      ({ s with initialized := YM_INSTANCE_INIT_MASK,
                prevC := CA,
                payloadLen := 0 },
       YMODEM_OK, []) := by
  simp only [CA] at hprev
  unfold ymodem_ReceiveByte ymodem_init_assert ymodem_FrameByte GenerateResponse
  simp [h1, h2, hprev, SOH, STX, EOT, CA]

end Ymodem

namespace Ymodem

open ymodem_err_e ymodem_file_cb_e ym_ret_t

theorem Str2IntGo_shift (x : Nat) (l : List Nat) (fuel : Nat) :
    ∀ i acc, Str2IntGo (x :: l) (i + 1) acc fuel = Str2IntGo l i acc fuel := by
  induction fuel with
  | zero => intro i acc; rfl
  | succ n ih =>
    intro i acc
    unfold Str2IntGo
    simp only [List.getD_cons_succ]
    split
    · rfl
    · split
      · exact ih (i + 1) _
      · rfl

theorem Str2IntGo_digits (ds : List Nat) :
    ∀ rest acc fuel, ds.length < fuel → (∀ c ∈ ds, 48 ≤ c ∧ c ≤ 57) →
    Str2IntGo (ds ++ 0 :: rest) 0 acc fuel =
      some (ds.foldl (fun a c => (a * 10 + (c - 48)) % 4294967296) acc) := by
  induction ds with
  | nil =>
    intro rest acc fuel hf hd
    match fuel, hf with
    | n + 1, _ => rfl
  | cons d ds ih =>
    intro rest acc fuel hf hd
    have hdd := hd d (by simp)
    match fuel, hf with
    | n + 1, hf =>
      unfold Str2IntGo
      have hd0 : d ≠ 0 := by omega
      simp only [List.cons_append, List.getD_cons_zero]
      rw [if_neg hd0, if_pos hdd, Str2IntGo_shift]
      rw [ih rest _ n (by simp at hf; omega) (fun c hc => hd c (by simp [hc]))]
      rfl

theorem Str2IntGo_baddigit (ds : List Nat) :
    ∀ b rest acc fuel, ds.length < fuel → (∀ c ∈ ds, 48 ≤ c ∧ c ≤ 57) →
    b ≠ 0 → ¬ (48 ≤ b ∧ b ≤ 57) →
    Str2IntGo (ds ++ b :: rest) 0 acc fuel = none := by
  induction ds with
  | nil =>
    intro b rest acc fuel hf hd hb0 hbd
    match fuel, hf with
    | n + 1, _ =>
      unfold Str2IntGo
      simp only [List.nil_append, List.getD_cons_zero]
      rw [if_neg hb0, if_neg hbd]
  | cons d ds ih =>
    intro b rest acc fuel hf hd hb0 hbd
    have hdd := hd d (by simp)
    match fuel, hf with
    | n + 1, hf =>
      unfold Str2IntGo
      have hd0 : d ≠ 0 := by omega
      simp only [List.cons_append, List.getD_cons_zero]
      rw [if_neg hd0, if_pos hdd, Str2IntGo_shift]
      exact ih b rest _ n (by simp at hf; omega) (fun c hc => hd c (by simp [hc])) hb0 hbd

theorem Str2IntGo_alldigits (l : List Nat) : ∀ fuel i acc,
    (∀ j, j < fuel → 48 ≤ l.getD (i + j) 0 ∧ l.getD (i + j) 0 ≤ 57) →
    Str2IntGo l i acc fuel = none := by
  intro fuel
  induction fuel with
  | zero => intro i acc _; rfl
  | succ n ih =>
    intro i acc hd
    have h0 := hd 0 (by omega)
    simp only [Nat.add_zero] at h0
    unfold Str2IntGo
    rw [if_neg (by omega : ¬ l.getD i 0 = 0), if_pos h0]
    exact ih (i + 1) _ (fun j hj => by
      have := hd (j + 1) (by omega)
      simpa [Nat.add_assoc, Nat.add_comm 1 j] using this)

end Ymodem

namespace Ymodem

open ymodem_err_e ymodem_file_cb_e ym_ret_t

/-- Claim C1: from a fresh session, a well-formed packet number 0 with a
nonzero first payload byte invokes the name callback with the
NUL-terminated filename and parsed decimal size, advances the expected
sequence to 1, and replies ACK + CRC-mode byte; a later well-formed data
packet the sink accepts hands the declared payload to the data callback,
increments the expected sequence and replies a single ACK. -/
theorem claim_C1 :
    (∀ (cb : ym_callback) (s : ymodem_t) (lead seq comp hi lo : Nat)
       (payload name sizeStr rest : List Nat),
      (lead = SOH ∧ payload.length = YM_PACKET_SIZE ∨
        lead = STX ∧ payload.length = YM_PACKET_1K_SIZE) →
      s.nextStatus = YMODEM_OK → s.startOfPacket = 1 → s.packetBytes = 0 →
      seq = ((comp ^^^ 0xFF) &&& 0xFF) →
      seq % 256 = s.packetsReceived % 256 →
      s.packetsReceived = 0 →
      s.eotReceived ≠ 1 →
      payload.length + 5 ≤ s.packetData.length → 1 ≤ s.packetData.length →
      2 ≤ s.payloadTx.length →
      hi = crc16 payload >>> 8 → lo = crc16 payload % 256 →
      payload = name ++ [0] ++ sizeStr ++ [32] ++ rest →
      name ≠ [] → (∀ c ∈ name, c ≠ 0) → name.length ≤ 255 →
      (∀ c ∈ sizeStr, c ≠ 32) → sizeStr.length ≤ 15 →
      cb YMODEM_FILE_CB_NAME (writeFrom s.fileName 0 (name ++ [0]))
        (match Str2Int (writeFrom s.fileSizeStr 0 (sizeStr ++ [0])) with
         | some v => v
         | none => s.fileSize) = YMODEM_OK →
      ymodem_Feed cb s ([lead, seq, comp] ++ payload ++ [hi, lo]) =
        ({ s with initialized := YM_INSTANCE_INIT_MASK,
                  packetSize := payload.length,
                  startOfPacket := 1,
                  packetBytes := 0,
                  prevC := lo,
                  payloadLen := 2,
                  payloadTx := (s.payloadTx.set 0 ACK).set 1 CRC16,
                  packetData := writeFrom s.packetData 1 ([seq, comp] ++ payload ++ [hi, lo]),
                  fileName := writeFrom s.fileName 0 (name ++ [0]),
                  fileSizeStr := writeFrom s.fileSizeStr 0 (sizeStr ++ [0]),
                  fileSize :=
                    (match Str2Int (writeFrom s.fileSizeStr 0 (sizeStr ++ [0])) with
                     | some v => v
                     | none => s.fileSize),
                  packetsReceived := 1 },
         [ym_event.fileCb YMODEM_FILE_CB_NAME (writeFrom s.fileName 0 (name ++ [0]))
            (match Str2Int (writeFrom s.fileSizeStr 0 (sizeStr ++ [0])) with
             | some v => v
             | none => s.fileSize)] ++
           (if s.serialWriteFxn then [ym_event.serialTx [ACK, CRC16]] else []),
         List.replicate (payload.length + 4) YMODEM_OK ++ [YMODEM_TX_PENDING])) ∧
    (∀ (cb : ym_callback) (s : ymodem_t) (lead seq comp hi lo : Nat) (payload : List Nat),
      (lead = SOH ∧ payload.length = YM_PACKET_SIZE ∨
        lead = STX ∧ payload.length = YM_PACKET_1K_SIZE) →
      s.nextStatus = YMODEM_OK → s.startOfPacket = 1 → s.packetBytes = 0 →
      seq = ((comp ^^^ 0xFF) &&& 0xFF) →
      seq % 256 = s.packetsReceived % 256 →
      s.packetsReceived ≠ 0 →
      s.eotReceived ≠ 1 →
      payload.length + 5 ≤ s.packetData.length → 1 ≤ s.packetData.length →
      1 ≤ s.payloadTx.length →
      hi = crc16 payload >>> 8 → lo = crc16 payload % 256 →
      cb YMODEM_FILE_CB_DATA payload payload.length = YMODEM_OK →
      ymodem_Feed cb s ([lead, seq, comp] ++ payload ++ [hi, lo]) =
        ({ s with initialized := YM_INSTANCE_INIT_MASK,
                  packetSize := payload.length,
                  startOfPacket := 1,
                  packetBytes := 0,
                  prevC := lo,
                  payloadLen := 1,
                  payloadTx := s.payloadTx.set 0 ACK,
                  packetData := writeFrom s.packetData 1 ([seq, comp] ++ payload ++ [hi, lo]),
                  packetsReceived := s.packetsReceived + 1 },
         [ym_event.fileCb YMODEM_FILE_CB_DATA payload payload.length] ++
           (if s.serialWriteFxn then [ym_event.serialTx [ACK]] else []),
         List.replicate (payload.length + 4) YMODEM_OK ++ [YMODEM_TX_PENDING])) :=
  ⟨feed_first_ok, feed_data_ok⟩

set_option maxRecDepth 100000 in
/-- Witness for C1: a concrete first packet announcing `file.bin` of
size 10 fires the name callback and earns ACK + CRC16; a concrete data
packet fires the data callback with the 128-byte payload and earns a
single ACK, advancing the sequence each time. -/
theorem claim_C1_witness :
    (ymodem_Feed cbAccept ymodem_fresh
        ([1, 0, 255] ++ wpay ++ [crc16 wpay >>> 8, crc16 wpay % 256])).2 =
      ([ym_event.fileCb YMODEM_FILE_CB_NAME
          ([102, 105, 108, 101, 46, 98, 105, 110, 0] ++ List.replicate 247 0) 10,
        ym_event.serialTx [ACK, CRC16]],
       List.replicate 132 YMODEM_OK ++ [YMODEM_TX_PENDING]) ∧
    (ymodem_Feed cbAccept ymodem_fresh
        ([1, 0, 255] ++ wpay ++ [crc16 wpay >>> 8, crc16 wpay % 256])).1.packetsReceived = 1 ∧
    (ymodem_Feed cbAccept { ymodem_fresh with packetsReceived := 1 }
        ([1, 1, 254] ++ wpay ++ [crc16 wpay >>> 8, crc16 wpay % 256])).2 =
      ([ym_event.fileCb YMODEM_FILE_CB_DATA wpay 128, ym_event.serialTx [ACK]],
       List.replicate 132 YMODEM_OK ++ [YMODEM_TX_PENDING]) ∧
    (ymodem_Feed cbAccept { ymodem_fresh with packetsReceived := 1 }
        ([1, 1, 254] ++ wpay ++ [crc16 wpay >>> 8, crc16 wpay % 256])).1.packetsReceived = 2 := by
  have h1 := claim_C1.1 cbAccept ymodem_fresh 1 0 255 (crc16 wpay >>> 8) (crc16 wpay % 256)
    wpay [102, 105, 108, 101, 46, 98, 105, 110] [49, 48] (List.replicate 116 0)
    (Or.inl ⟨rfl, by decide⟩) rfl rfl rfl (by decide) rfl rfl (by decide)
    (by decide) (by decide) (by decide) rfl rfl (by decide) (by decide) (by decide)
    (by decide) (by decide) (by decide) rfl
  have h2 := claim_C1.2 cbAccept { ymodem_fresh with packetsReceived := 1 } 1 1 254
    (crc16 wpay >>> 8) (crc16 wpay % 256) wpay
    (Or.inl ⟨rfl, by decide⟩) rfl rfl rfl (by decide) rfl (by decide)
    (by decide) (by decide) (by decide) (by decide) rfl rfl rfl
  rw [h1, h2]
  refine ⟨by decide, rfl, by decide, rfl⟩

end Ymodem

namespace Ymodem

open ymodem_err_e ymodem_file_cb_e ym_ret_t

/-- Claim C4: a framing-valid packet with a wrong sequence byte or a
failing checksum is answered by a single NAK, sets no sticky status and
does not advance the expected sequence; resubmitting the correct packet
afterwards produces the same trace, statuses and sequence advance as a
first attempt.  The sequence advances only on a packet passing both
checks. -/
theorem claim_C4 :
    (∀ (cb : ym_callback) (s : ymodem_t) (lead seq comp hi lo : Nat) (payload : List Nat),
      (lead = SOH ∧ payload.length = YM_PACKET_SIZE ∨
        lead = STX ∧ payload.length = YM_PACKET_1K_SIZE) →
      s.nextStatus = YMODEM_OK → s.startOfPacket = 1 → s.packetBytes = 0 →
      seq = ((comp ^^^ 0xFF) &&& 0xFF) →
      s.eotReceived ≠ 1 →
      payload.length + 5 ≤ s.packetData.length → 1 ≤ s.packetData.length →
      1 ≤ s.payloadTx.length →
      hi < 256 → lo < 256 →
      (seq % 256 ≠ s.packetsReceived % 256 ∨
        ¬ (hi = crc16 payload >>> 8 ∧ lo = crc16 payload % 256)) →
      ymodem_Feed cb s ([lead, seq, comp] ++ payload ++ [hi, lo]) =
        ({ s with initialized := YM_INSTANCE_INIT_MASK,
                  packetSize := payload.length,
                  startOfPacket := 1,
                  packetBytes := 0,
                  prevC := lo,
                  payloadLen := 1,
                  payloadTx := s.payloadTx.set 0 NAK,
                  packetData := writeFrom s.packetData 1 ([seq, comp] ++ payload ++ [hi, lo]) },
         (if s.serialWriteFxn then [ym_event.serialTx [NAK]] else []),
         List.replicate (payload.length + 4) YMODEM_OK ++ [YMODEM_TX_PENDING])) ∧
    (∀ (cb : ym_callback) (s : ymodem_t) (lead seq comp seqB compB badHi badLo : Nat)
       (payload : List Nat),
      (lead = SOH ∧ payload.length = YM_PACKET_SIZE ∨
        lead = STX ∧ payload.length = YM_PACKET_1K_SIZE) →
      s.nextStatus = YMODEM_OK → s.startOfPacket = 1 → s.packetBytes = 0 →
      seq = ((comp ^^^ 0xFF) &&& 0xFF) →
      seqB = ((compB ^^^ 0xFF) &&& 0xFF) →
      seq % 256 = s.packetsReceived % 256 →
      s.packetsReceived ≠ 0 →
      s.eotReceived ≠ 1 →
      payload.length + 5 ≤ s.packetData.length → 1 ≤ s.packetData.length →
      1 ≤ s.payloadTx.length →
      badHi < 256 → badLo < 256 →
      (seqB % 256 ≠ s.packetsReceived % 256 ∨
        ¬ (badHi = crc16 payload >>> 8 ∧ badLo = crc16 payload % 256)) →
      cb YMODEM_FILE_CB_DATA payload payload.length = YMODEM_OK →
      (ymodem_Feed cb
          (ymodem_Feed cb s ([lead, seqB, compB] ++ payload ++ [badHi, badLo])).1
          ([lead, seq, comp] ++ payload ++ [crc16 payload >>> 8, crc16 payload % 256])).2 =
        (ymodem_Feed cb s
          ([lead, seq, comp] ++ payload ++ [crc16 payload >>> 8, crc16 payload % 256])).2 ∧
      (ymodem_Feed cb
          (ymodem_Feed cb s ([lead, seqB, compB] ++ payload ++ [badHi, badLo])).1
          ([lead, seq, comp] ++ payload ++
            [crc16 payload >>> 8, crc16 payload % 256])).1.packetsReceived =
        s.packetsReceived + 1) := by
  refine ⟨feed_bad, ?_⟩
  intro cb s lead seq comp seqB compB badHi badLo payload hlead h1 h2 h3 hcomp hcompB hseqm
    hpr heot hlen hpd hptx hbHi hbLo hbad hcb
  have hB := feed_bad cb s lead seqB compB badHi badLo payload hlead h1 h2 h3 hcompB heot
    hlen hpd hptx hbHi hbLo hbad
  have hG1 := feed_data_ok cb s lead seq comp (crc16 payload >>> 8) (crc16 payload % 256)
    payload hlead h1 h2 h3 hcomp hseqm hpr heot hlen hpd hptx rfl rfl hcb
  have hG2 := feed_data_ok cb
    { s with initialized := YM_INSTANCE_INIT_MASK,
             packetSize := payload.length,
             startOfPacket := 1,
             packetBytes := 0,
             prevC := badLo,
             payloadLen := 1,
             payloadTx := s.payloadTx.set 0 NAK,
             packetData := writeFrom s.packetData 1 ([seqB, compB] ++ payload ++ [badHi, badLo]) }
    lead seq comp (crc16 payload >>> 8) (crc16 payload % 256) payload hlead (by exact h1)
    rfl rfl hcomp (by exact hseqm) (by exact hpr) (by exact heot)
    (by show payload.length + 5 ≤
          (writeFrom s.packetData 1 ([seqB, compB] ++ payload ++ [badHi, badLo])).length
        rw [writeFrom_length]
        exact hlen)
    (by show 1 ≤ (writeFrom s.packetData 1 ([seqB, compB] ++ payload ++ [badHi, badLo])).length
        rw [writeFrom_length]
        exact hpd)
    (by show 1 ≤ (s.payloadTx.set 0 NAK).length
        rw [List.length_set]
        exact hptx)
    rfl rfl hcb
  rw [hB]
  simp only []
  rw [hG2, hG1]
  simp

end Ymodem

namespace Ymodem

open ymodem_err_e ymodem_file_cb_e ym_ret_t

set_option maxRecDepth 100000 in
/-- Witness for C4: a packet with a wrong sequence byte gets a single
NAK, leaves the expected sequence and nominal status untouched, and the
corrected packet then behaves exactly as a first attempt. -/
theorem claim_C4_witness :
    (ymodem_Feed cbAccept { ymodem_fresh with packetsReceived := 1 }
        ([1, 2, 253] ++ wpay ++ [crc16 wpay >>> 8, crc16 wpay % 256])).2 =
      ([ym_event.serialTx [NAK]], List.replicate 132 YMODEM_OK ++ [YMODEM_TX_PENDING]) ∧
    (ymodem_Feed cbAccept { ymodem_fresh with packetsReceived := 1 }
        ([1, 2, 253] ++ wpay ++ [crc16 wpay >>> 8, crc16 wpay % 256])).1.packetsReceived = 1 ∧
    (ymodem_Feed cbAccept { ymodem_fresh with packetsReceived := 1 }
        ([1, 2, 253] ++ wpay ++ [crc16 wpay >>> 8, crc16 wpay % 256])).1.nextStatus =
      YMODEM_OK ∧
    (ymodem_Feed cbAccept
        (ymodem_Feed cbAccept { ymodem_fresh with packetsReceived := 1 }
          ([1, 2, 253] ++ wpay ++ [crc16 wpay >>> 8, crc16 wpay % 256])).1
        ([1, 1, 254] ++ wpay ++ [crc16 wpay >>> 8, crc16 wpay % 256])).2 =
      (ymodem_Feed cbAccept { ymodem_fresh with packetsReceived := 1 }
        ([1, 1, 254] ++ wpay ++ [crc16 wpay >>> 8, crc16 wpay % 256])).2 ∧
    (ymodem_Feed cbAccept
        (ymodem_Feed cbAccept { ymodem_fresh with packetsReceived := 1 }
          ([1, 2, 253] ++ wpay ++ [crc16 wpay >>> 8, crc16 wpay % 256])).1
        ([1, 1, 254] ++ wpay ++
          [crc16 wpay >>> 8, crc16 wpay % 256])).1.packetsReceived = 2 := by
  have hB := claim_C4.1 cbAccept { ymodem_fresh with packetsReceived := 1 } 1 2 253
    (crc16 wpay >>> 8) (crc16 wpay % 256) wpay
    (Or.inl ⟨rfl, by decide⟩) rfl rfl rfl (by decide) (by decide) (by decide) (by decide)
    (by decide) (shiftRight8_lt_256 (crc16_lt wpay)) (Nat.mod_lt _ (by norm_num))
    (Or.inl (by decide))
  have hR := claim_C4.2 cbAccept { ymodem_fresh with packetsReceived := 1 } 1 1 254 2 253
    (crc16 wpay >>> 8) (crc16 wpay % 256) wpay
    (Or.inl ⟨rfl, by decide⟩) rfl rfl rfl (by decide) (by decide) rfl (by decide) (by decide)
    (by decide) (by decide) (by decide) (shiftRight8_lt_256 (crc16_lt wpay))
    (Nat.mod_lt _ (by norm_num)) (Or.inl (by decide)) rfl
  refine ⟨?_, ?_, ?_, hR.1, hR.2⟩
  · rw [hB]
    decide
  · rw [hB]
  · rw [hB]
    rfl

end Ymodem

namespace Ymodem

open ymodem_err_e ymodem_file_cb_e ym_ret_t

/-- Claim C7: a validated first packet whose first payload byte is zero
aborts the session: the reply is two cancel bytes, the sticky status
becomes aborted, and the trace contains no name callback. -/
theorem claim_C7 (cb : ym_callback) (s : ymodem_t) (lead seq comp hi lo : Nat)
    (payload : List Nat)
    (hlead : lead = SOH ∧ payload.length = YM_PACKET_SIZE ∨
             lead = STX ∧ payload.length = YM_PACKET_1K_SIZE)
    (h1 : s.nextStatus = YMODEM_OK) (h2 : s.startOfPacket = 1) (h3 : s.packetBytes = 0)
    (hcomp : seq = ((comp ^^^ 0xFF) &&& 0xFF))
    (hseqm : seq % 256 = s.packetsReceived % 256)
    (hpr0 : s.packetsReceived = 0)
    (heot : s.eotReceived ≠ 1)
    (hlen : payload.length + 5 ≤ s.packetData.length) (hpd : 1 ≤ s.packetData.length)
    (hptx : 2 ≤ s.payloadTx.length)
    (hcrcHi : hi = crc16 payload >>> 8) (hcrcLo : lo = crc16 payload % 256)
    (hpl : 1 ≤ payload.length)
    (hz : payload.getD 0 0 = 0) :
    ymodem_Feed cb s ([lead, seq, comp] ++ payload ++ [hi, lo]) =
      ({ s with initialized := YM_INSTANCE_INIT_MASK,
                packetSize := payload.length,
                startOfPacket := 1,
                packetBytes := 0,
                prevC := lo,
                payloadLen := 2,
                payloadTx := (s.payloadTx.set 0 CA).set 1 CA,
                nextStatus := YMODEM_ABORTED,
                packetsReceived := 0,
                packetData := writeFrom s.packetData 1 ([seq, comp] ++ payload ++ [hi, lo]) },
       (if s.serialWriteFxn then [ym_event.serialTx [CA, CA]] else []),
       List.replicate (payload.length + 4) YMODEM_OK ++ [YMODEM_TX_PENDING]) :=
  feed_first_zero cb s lead seq comp hi lo payload hlead h1 h2 h3 hcomp hseqm hpr0 heot
    hlen hpd hptx hcrcHi hcrcLo hpl hz

set_option maxRecDepth 100000 in
/-- Witness for C7: an all-zero first packet from a fresh session gets
the two cancel bytes, the aborted sticky status, and no callback. -/
theorem claim_C7_witness :
    (ymodem_Feed cbAccept ymodem_fresh
        ([1, 0, 255] ++ List.replicate 128 0 ++
          [crc16 (List.replicate 128 0) >>> 8, crc16 (List.replicate 128 0) % 256])).2 =
      ([ym_event.serialTx [CA, CA]], List.replicate 132 YMODEM_OK ++ [YMODEM_TX_PENDING]) ∧
    (ymodem_Feed cbAccept ymodem_fresh
        ([1, 0, 255] ++ List.replicate 128 0 ++
          [crc16 (List.replicate 128 0) >>> 8,
           crc16 (List.replicate 128 0) % 256])).1.nextStatus = YMODEM_ABORTED := by
  have h := claim_C7 cbAccept ymodem_fresh 1 0 255 (crc16 (List.replicate 128 0) >>> 8)
    (crc16 (List.replicate 128 0) % 256) (List.replicate 128 0)
    (Or.inl ⟨rfl, by decide⟩) rfl rfl rfl (by decide) rfl rfl (by decide) (by decide)
    (by decide) (by decide) rfl rfl (by decide) (by decide)
  refine ⟨?_, ?_⟩
  · rw [h]
    decide
  · rw [h]

/-- Claim C8: an EOT byte in the awaiting-header state sets the EOT flag
and is answered with ACK + CRC-mode byte; the next framing-valid packet
then skips sequence and CRC validation, fires the end callback, replies
a single ACK and sets the sticky status to complete. -/
theorem claim_C8 :
    (∀ (cb : ym_callback) (s : ymodem_t),
      s.nextStatus = YMODEM_OK → s.startOfPacket ≠ 0 → 2 ≤ s.payloadTx.length →
      ymodem_ReceiveByte cb s EOT =
        ({ s with initialized := YM_INSTANCE_INIT_MASK,
                  eotReceived := 1,
                  prevC := EOT,
                  payloadLen := 2,
                  payloadTx := (s.payloadTx.set 0 ACK).set 1 CRC16 },
         YMODEM_TX_PENDING,
         (if s.serialWriteFxn then [ym_event.serialTx [ACK, CRC16]] else []))) ∧
    (∀ (cb : ym_callback) (s : ymodem_t) (lead seq comp hi lo : Nat) (payload : List Nat),
      (lead = SOH ∧ payload.length = YM_PACKET_SIZE ∨
        lead = STX ∧ payload.length = YM_PACKET_1K_SIZE) →
      s.nextStatus = YMODEM_OK → s.startOfPacket = 1 → s.packetBytes = 0 →
      seq = ((comp ^^^ 0xFF) &&& 0xFF) →
      s.eotReceived = 1 →
      payload.length + 5 ≤ s.packetData.length → 1 ≤ s.packetData.length →
      1 ≤ s.payloadTx.length →
      ymodem_Feed cb s ([lead, seq, comp] ++ payload ++ [hi, lo]) =
        ({ s with initialized := YM_INSTANCE_INIT_MASK,
                  packetSize := payload.length,
                  startOfPacket := 1,
                  packetBytes := 0,
                  prevC := lo,
                  payloadLen := 1,
                  payloadTx := s.payloadTx.set 0 ACK,
                  nextStatus := YMODEM_COMPLETE,
                  packetData := writeFrom s.packetData 1 ([seq, comp] ++ payload ++ [hi, lo]) },
         [ym_event.fileCb YMODEM_FILE_CB_END [] 0] ++
           (if s.serialWriteFxn then [ym_event.serialTx [ACK]] else []),
         List.replicate (payload.length + 4) YMODEM_OK ++ [YMODEM_TX_PENDING])) :=
  ⟨receive_eot, feed_eot_close⟩

set_option maxRecDepth 100000 in
/-- Witness for C8: the EOT byte from a fresh session earns ACK + CRC16
and raises the EOT flag; the subsequent closing packet (any trailer, no
validation) fires the end callback, earns a single ACK and completes the
session. -/
theorem claim_C8_witness :
    (ymodem_ReceiveByte cbAccept ymodem_fresh EOT).1.eotReceived = 1 ∧
    (ymodem_ReceiveByte cbAccept ymodem_fresh EOT).2 =
      (YMODEM_TX_PENDING, [ym_event.serialTx [ACK, CRC16]]) ∧
    (ymodem_Feed cbAccept (ymodem_ReceiveByte cbAccept ymodem_fresh EOT).1
        ([1, 0, 255] ++ List.replicate 128 0 ++ [0, 0])).2 =
      ([ym_event.fileCb YMODEM_FILE_CB_END [] 0, ym_event.serialTx [ACK]],
       List.replicate 132 YMODEM_OK ++ [YMODEM_TX_PENDING]) ∧
    (ymodem_Feed cbAccept (ymodem_ReceiveByte cbAccept ymodem_fresh EOT).1
        ([1, 0, 255] ++ List.replicate 128 0 ++ [0, 0])).1.nextStatus = YMODEM_COMPLETE := by
  have h1 := claim_C8.1 cbAccept ymodem_fresh rfl (by decide) (by decide)
  have h2 := claim_C8.2 cbAccept
    { ymodem_fresh with initialized := YM_INSTANCE_INIT_MASK,
                        eotReceived := 1,
                        prevC := EOT,
                        payloadLen := 2,
                        payloadTx := (ymodem_fresh.payloadTx.set 0 ACK).set 1 CRC16 }
    1 0 255 0 0 (List.replicate 128 0)
    (Or.inl ⟨rfl, by decide⟩) rfl rfl rfl (by decide) rfl (by decide) (by decide) (by decide)
  refine ⟨?_, ?_, ?_, ?_⟩
  · rw [h1]
  · rw [h1]
    decide
  · simp only [h1]
    rw [h2]
    decide
  · simp only [h1]
    rw [h2]

end Ymodem

namespace Ymodem

open ymodem_err_e ymodem_file_cb_e ym_ret_t

theorem processPacket_initialized (cb : ym_callback) (t : ymodem_t) :
    (ymodem_ProcessPacket cb t).1.initialized = t.initialized := by
  unfold ymodem_ProcessPacket ymodem_ProcessFirstPacket ymodem_ProcessDataPacket
  repeat' split
  all_goals rfl

theorem genResponse_initialized (s : ymodem_t) (r : ym_ret_t)
    (h : s.initialized = YM_INSTANCE_INIT_MASK) :
    (GenerateResponse s r).1.initialized = YM_INSTANCE_INIT_MASK := by
  unfold GenerateResponse ymodem_Abort ymodem_init_assert
  cases r <;> first | rfl | exact h

theorem genResponse_prevC (s : ymodem_t) (r : ym_ret_t) :
    (GenerateResponse s r).1.prevC = s.prevC := by
  unfold GenerateResponse ymodem_Abort ymodem_init_assert
  cases r <;> rfl

theorem frameByte_initialized (cb : ym_callback) (s : ymodem_t) (c : Nat) :
    (ymodem_FrameByte cb s c).1.initialized = s.initialized := by
  unfold ymodem_FrameByte
  dsimp only
  repeat' split
  all_goals try rfl
  all_goals exact processPacket_initialized cb _

theorem receive_initialized (cb : ym_callback) (s : ymodem_t) (c : Nat) :
    (ymodem_ReceiveByte cb s c).1.initialized = YM_INSTANCE_INIT_MASK := by
  unfold ymodem_ReceiveByte ymodem_init_assert
  dsimp only
  split
  · rfl
  · exact genResponse_initialized _ _
      (frameByte_initialized cb { s with initialized := YM_INSTANCE_INIT_MASK } c)

theorem receive_prevC (cb : ym_callback) (s : ymodem_t) (c : Nat)
    (h1 : s.nextStatus = YMODEM_OK) :
    (ymodem_ReceiveByte cb s c).1.prevC = c := by
  unfold ymodem_ReceiveByte ymodem_init_assert
  dsimp only
  rw [if_neg (by simp [h1])]
  exact genResponse_prevC _ _

end Ymodem

namespace Ymodem

open ymodem_err_e ymodem_file_cb_e ym_ret_t

/-- Counterexample to C3 as stated: on a session with a sticky aborted
status whose `initialized` field is not the init mask, `ymodem_ReceiveByte`
does return the sticky status with no callback and no serial write, but
it DOES mutate the session: the assert-with-assignment stores the init
mask into `initialized`. -/
theorem claim_C3_counterexample :
    (ymodem_ReceiveByte cbAccept
        { ymodem_fresh with nextStatus := YMODEM_ABORTED, initialized := 0 } 7).2 =
      (YMODEM_ABORTED, []) ∧
    (ymodem_ReceiveByte cbAccept
        { ymodem_fresh with nextStatus := YMODEM_ABORTED, initialized := 0 } 7).1 ≠
      { ymodem_fresh with nextStatus := YMODEM_ABORTED, initialized := 0 } := by
  constructor
  · rfl
  · intro h
    have h82 : (ymodem_ReceiveByte cbAccept
        { ymodem_fresh with nextStatus := YMODEM_ABORTED, initialized := 0 } 7).1.initialized =
        YM_INSTANCE_INIT_MASK := rfl
    rw [h] at h82
    exact absurd h82 (by decide)

/-- Claim C3 (amended): with a non-nominal sticky status every call
returns that status with no callback and no serial write, the only
mutation being the assert's store of the init mask into `initialized`;
`ymodem_Reset` returns the nominal status, clears the transient transfer
state and leaves the serial write function unchanged. -/
theorem claim_C3 :
    (∀ (cb : ym_callback) (s : ymodem_t) (c : Nat), s.nextStatus ≠ YMODEM_OK →
      ymodem_ReceiveByte cb s c =
        ({ s with initialized := YM_INSTANCE_INIT_MASK }, s.nextStatus, [])) ∧
    (∀ s : ymodem_t, ymodem_Reset s =
      ({ s with initialized := YM_INSTANCE_INIT_MASK, fileSize := 0, prevC := 0,
                startOfPacket := 1, packetBytes := 0, packetSize := 0, packetsReceived := 0,
                eotReceived := 0, nextStatus := YMODEM_OK }, YMODEM_OK)) ∧
    (∀ s : ymodem_t, (ymodem_Reset s).1.serialWriteFxn = s.serialWriteFxn) :=
  ⟨receive_sticky, fun _ => rfl, fun _ => rfl⟩

/-- Witness for C3 (amended): a session stuck on aborted answers any
byte with the aborted status, no events, and only the init-mask store;
resetting it yields exactly a fresh session, keeping the configured
serial write function. -/
theorem claim_C3_witness :
    ymodem_ReceiveByte cbAccept
        { ymodem_fresh with nextStatus := YMODEM_ABORTED, initialized := 0 } 7 =
      ({ ymodem_fresh with nextStatus := YMODEM_ABORTED,
                           initialized := YM_INSTANCE_INIT_MASK },
       YMODEM_ABORTED, []) ∧
    ymodem_Reset { ymodem_fresh with nextStatus := YMODEM_ABORTED, initialized := 0 } =
      (ymodem_fresh, YMODEM_OK) ∧
    (ymodem_Reset { ymodem_fresh with nextStatus := YMODEM_ABORTED,
                                      initialized := 0 }).1.serialWriteFxn = true :=
  ⟨claim_C3.1 cbAccept
      { ymodem_fresh with nextStatus := YMODEM_ABORTED, initialized := 0 } 7 (by decide),
   claim_C3.2.1 { ymodem_fresh with nextStatus := YMODEM_ABORTED, initialized := 0 },
   claim_C3.2.2 { ymodem_fresh with nextStatus := YMODEM_ABORTED, initialized := 0 }⟩

/-- Claim C5: in the awaiting-header state, a cancel byte after a cancel
byte replies the single CRC-mode byte and sets the sticky aborted
status, so the next call returns aborted with no reprocessing; a single
cancel byte after a non-cancel byte produces no outbound bytes and a
nominal outcome; every processed byte is recorded as the previous
byte. -/
theorem claim_C5 :
    (∀ (cb : ym_callback) (s : ymodem_t),
      s.nextStatus = YMODEM_OK → s.startOfPacket ≠ 0 → s.prevC = CA →
      1 ≤ s.payloadTx.length →
      ymodem_ReceiveByte cb s CA =
        ({ s with initialized := YM_INSTANCE_INIT_MASK,
                  prevC := CA,
                  payloadLen := 1,
                  payloadTx := s.payloadTx.set 0 CRC16,
                  nextStatus := YMODEM_ABORTED },
         YMODEM_TX_PENDING,
         (if s.serialWriteFxn then [ym_event.serialTx [CRC16]] else []))) ∧
    (∀ (cb cb2 : ym_callback) (s : ymodem_t) (c : Nat),
      s.nextStatus = YMODEM_OK → s.startOfPacket ≠ 0 → s.prevC = CA →
      1 ≤ s.payloadTx.length →
      ymodem_ReceiveByte cb2 (ymodem_ReceiveByte cb s CA).1 c =
        ((ymodem_ReceiveByte cb s CA).1, YMODEM_ABORTED, [])) ∧
    (∀ (cb : ym_callback) (s : ymodem_t),
      s.nextStatus = YMODEM_OK → s.startOfPacket ≠ 0 → s.prevC ≠ CA →
      ymodem_ReceiveByte cb s CA =
        ({ s with initialized := YM_INSTANCE_INIT_MASK,
                  prevC := CA,
                  payloadLen := 0 },
         YMODEM_OK, [])) ∧
    (∀ (cb : ym_callback) (s : ymodem_t) (c : Nat),
      s.nextStatus = YMODEM_OK → (ymodem_ReceiveByte cb s c).1.prevC = c) := by
  refine ⟨receive_cancel2, ?_, receive_cancel1, receive_prevC⟩
  intro cb cb2 s c h1 h2 hprev hptx
  rw [receive_cancel2 cb s h1 h2 hprev hptx]
  dsimp only
  have hs : ({ s with initialized := YM_INSTANCE_INIT_MASK,
                      prevC := CA,
                      payloadLen := 1,
                      payloadTx := s.payloadTx.set 0 CRC16,
                      nextStatus := YMODEM_ABORTED } : ymodem_t).nextStatus ≠ YMODEM_OK := by
    simp
  exact receive_sticky cb2 _ c hs

set_option maxRecDepth 100000 in
/-- Witness for C5: from a fresh session one cancel byte is silent and
recorded; with a cancel byte as predecessor a second cancel replies the
CRC-mode byte and aborts; the next byte then bounces off the sticky
status; an arbitrary byte is recorded as previous byte. -/
theorem claim_C5_witness :
    (ymodem_ReceiveByte cbAccept { ymodem_fresh with prevC := CA } CA).2 =
      (YMODEM_TX_PENDING, [ym_event.serialTx [CRC16]]) ∧
    (ymodem_ReceiveByte cbAccept { ymodem_fresh with prevC := CA } CA).1.nextStatus =
      YMODEM_ABORTED ∧
    ymodem_ReceiveByte cbAccept
        (ymodem_ReceiveByte cbAccept { ymodem_fresh with prevC := CA } CA).1 99 =
      ((ymodem_ReceiveByte cbAccept { ymodem_fresh with prevC := CA } CA).1,
       YMODEM_ABORTED, []) ∧
    (ymodem_ReceiveByte cbAccept ymodem_fresh CA).2 = (YMODEM_OK, []) ∧
    (ymodem_ReceiveByte cbAccept ymodem_fresh CA).1.prevC = CA ∧
    (ymodem_ReceiveByte cbAccept ymodem_fresh 7).1.prevC = 7 := by
  have hA := claim_C5.1 cbAccept { ymodem_fresh with prevC := CA } rfl (by decide) rfl
    (by decide)
  have hB := claim_C5.2.1 cbAccept cbAccept { ymodem_fresh with prevC := CA } 99 rfl
    (by decide) rfl (by decide)
  have hC := claim_C5.2.2.1 cbAccept ymodem_fresh rfl (by decide) (by decide)
  have hD := claim_C5.2.2.2 cbAccept ymodem_fresh 7 rfl
  refine ⟨?_, ?_, hB, ?_, ?_, hD⟩
  · rw [hA]
    all_goals decide
  · rw [hA]
    all_goals rfl
  · rw [hC]
    all_goals rfl
  · rw [hC]
    all_goals rfl

/-- Claim C6 (refuted — code bug): `GenerateResponse` never returns
`YMODEM_ABORTED` (the `YM_ABORTED` case returns `YMODEM_TX_PENDING`), so
the dispatch in `ymodem_ReceiveByte` that would deliver the
`YMODEM_FILE_CB_ABORTED` notification is dead code: on a confirmed
double-cancel abort the sink receives no aborted notification at all —
the trace holds only the serial reply while the status turns aborted. -/
theorem claim_C6 :
    (∀ (s : ymodem_t) (r : ym_ret_t), (GenerateResponse s r).2 ≠ YMODEM_ABORTED) ∧
    (ymodem_Feed cbAccept ymodem_fresh [CA, CA]).1.nextStatus = YMODEM_ABORTED ∧
    (ymodem_Feed cbAccept ymodem_fresh [CA, CA]).2.1 = [ym_event.serialTx [CRC16]] := by
  refine ⟨?_, rfl, rfl⟩
  intro s r
  unfold GenerateResponse ymodem_Abort ymodem_init_assert
  cases r <;> simp

/-- Claim C9: the assert-with-assignment guards always succeed and store
the init mask, so `ymodem_ReceiveByte`, `ymodem_Reset` and `ymodem_Abort`
never reject an uninitialized session, and a subsequent `ymodem_Init`
call on any of their results is the identity. -/
theorem claim_C9 :
    (∀ s : ymodem_t, (ymodem_init_assert s).2 = true ∧
      (ymodem_init_assert s).1.initialized = YM_INSTANCE_INIT_MASK) ∧
    (∀ (cb : ym_callback) (s : ymodem_t) (c : Nat),
      (ymodem_ReceiveByte cb s c).1.initialized = YM_INSTANCE_INIT_MASK ∧
      ∀ f : Bool, ymodem_Init (ymodem_ReceiveByte cb s c).1 f = (ymodem_ReceiveByte cb s c).1) ∧
    (∀ s : ymodem_t,
      (ymodem_Reset s).1.initialized = YM_INSTANCE_INIT_MASK ∧
      ∀ f : Bool, ymodem_Init (ymodem_Reset s).1 f = (ymodem_Reset s).1) ∧
    (∀ s : ymodem_t,
      (ymodem_Abort s).1.initialized = YM_INSTANCE_INIT_MASK ∧
      ∀ f : Bool, ymodem_Init (ymodem_Abort s).1 f = (ymodem_Abort s).1) := by
  refine ⟨fun s => ⟨rfl, rfl⟩, fun cb s c => ⟨receive_initialized cb s c, fun f => ?_⟩,
    fun s => ⟨rfl, fun f => ?_⟩, fun s => ⟨rfl, fun f => ?_⟩⟩
  · unfold ymodem_Init
    rw [if_pos (receive_initialized cb s c)]
  · unfold ymodem_Init
    rw [if_pos (show (ymodem_Reset s).1.initialized = YM_INSTANCE_INIT_MASK from rfl)]
  · unfold ymodem_Init
    rw [if_pos (show (ymodem_Abort s).1.initialized = YM_INSTANCE_INIT_MASK from rfl)]

end Ymodem

namespace Ymodem

open ymodem_err_e ymodem_file_cb_e ym_ret_t

/-- Claim C10: `Str2Int` succeeds exactly on NUL-terminated strings of
at most 10 decimal digits (yielding the decimal value, accumulated
modulo 2^32) and fails on a non-digit character or on 11 or more
digits; `ymodem_ProcessFirstPacket` ignores that result: on a parse
failure `fileSize` keeps its previous value, the name callback is still
invoked with that stale size, and the packet is still accepted when the
callback accepts. -/
theorem claim_C10 :
    (∀ (ds rest : List Nat), (∀ c ∈ ds, 48 ≤ c ∧ c ≤ 57) → ds.length ≤ 10 →
      Str2Int (ds ++ 0 :: rest) =
        some (ds.foldl (fun a c => (a * 10 + (c - 48)) % 4294967296) 0)) ∧
    (∀ (ds : List Nat) (b : Nat) (rest : List Nat),
      (∀ c ∈ ds, 48 ≤ c ∧ c ≤ 57) → ds.length ≤ 10 → b ≠ 0 → ¬ (48 ≤ b ∧ b ≤ 57) →
      Str2Int (ds ++ b :: rest) = none) ∧
    (∀ l : List Nat, (∀ j, j < 11 → 48 ≤ l.getD j 0 ∧ l.getD j 0 ≤ 57) →
      Str2Int l = none) ∧
    (∀ (cb : ym_callback) (s : ymodem_t) (lead seq comp hi lo : Nat)
       (payload name sizeStr rest : List Nat),
      (lead = SOH ∧ payload.length = YM_PACKET_SIZE ∨
        lead = STX ∧ payload.length = YM_PACKET_1K_SIZE) →
      s.nextStatus = YMODEM_OK → s.startOfPacket = 1 → s.packetBytes = 0 →
      seq = ((comp ^^^ 0xFF) &&& 0xFF) →
      seq % 256 = s.packetsReceived % 256 →
      s.packetsReceived = 0 →
      s.eotReceived ≠ 1 →
      payload.length + 5 ≤ s.packetData.length → 1 ≤ s.packetData.length →
      2 ≤ s.payloadTx.length →
      hi = crc16 payload >>> 8 → lo = crc16 payload % 256 →
      payload = name ++ [0] ++ sizeStr ++ [32] ++ rest →
      name ≠ [] → (∀ c ∈ name, c ≠ 0) → name.length ≤ 255 →
      (∀ c ∈ sizeStr, c ≠ 32) → sizeStr.length ≤ 15 →
      Str2Int (writeFrom s.fileSizeStr 0 (sizeStr ++ [0])) = none →
      cb YMODEM_FILE_CB_NAME (writeFrom s.fileName 0 (name ++ [0])) s.fileSize = YMODEM_OK →
      ymodem_Feed cb s ([lead, seq, comp] ++ payload ++ [hi, lo]) =
        ({ s with initialized := YM_INSTANCE_INIT_MASK,
                  packetSize := payload.length,
                  startOfPacket := 1,
                  packetBytes := 0,
                  prevC := lo,
                  payloadLen := 2,
                  payloadTx := (s.payloadTx.set 0 ACK).set 1 CRC16,
                  packetData := writeFrom s.packetData 1 ([seq, comp] ++ payload ++ [hi, lo]),
                  fileName := writeFrom s.fileName 0 (name ++ [0]),
                  fileSizeStr := writeFrom s.fileSizeStr 0 (sizeStr ++ [0]),
                  fileSize := s.fileSize,
                  packetsReceived := 1 },
         [ym_event.fileCb YMODEM_FILE_CB_NAME (writeFrom s.fileName 0 (name ++ [0]))
            s.fileSize] ++
           (if s.serialWriteFxn then [ym_event.serialTx [ACK, CRC16]] else []),
         List.replicate (payload.length + 4) YMODEM_OK ++ [YMODEM_TX_PENDING])) := by
  refine ⟨?_, ?_, ?_, ?_⟩
  · intro ds rest hd hl
    unfold Str2Int
    exact Str2IntGo_digits ds rest 0 11 (by omega) hd
  · intro ds b rest hd hl hb0 hbd
    unfold Str2Int
    exact Str2IntGo_baddigit ds b rest 0 11 (by omega) hd hb0 hbd
  · intro l h
    unfold Str2Int
    exact Str2IntGo_alldigits l 11 0 0 (fun j hj => by simpa using h j hj)
  · intro cb s lead seq comp hi lo payload name sizeStr rest hlead h1 h2 h3 hcomp hseqm hpr0
      heot hlen hpd hptx hcrcHi hcrcLo hpay hnne hname0 hnlen hs32 hslen hnone hcb
    have hcb2 : cb YMODEM_FILE_CB_NAME (writeFrom s.fileName 0 (name ++ [0]))
        (match Str2Int (writeFrom s.fileSizeStr 0 (sizeStr ++ [0])) with
         | some v => v
         | none => s.fileSize) = YMODEM_OK := by
      rw [hnone]
      exact hcb
    rw [feed_first_ok cb s lead seq comp hi lo payload name sizeStr rest hlead h1 h2 h3 hcomp
      hseqm hpr0 heot hlen hpd hptx hcrcHi hcrcLo hpay hnne hname0 hnlen hs32 hslen hcb2]
    simp [hnone]

/-- Sample first-packet payload carrying an unparsable size field: the
name `file.bin`, NUL, the letter `A`, a space, zero padding to 128
bytes. -/
def wpayX : List Nat :=
  [102, 105, 108, 101, 46, 98, 105, 110, 0, 65, 32] ++ List.replicate 117 0

set_option maxRecDepth 100000 in
/-- Witness for C10: the size string `10` parses to 10; `1A` fails; 12
digits fail; a first packet whose size field is the letter `A` still
fires the name callback — with the stale size 0 — and is accepted with
ACK + CRC16 while `fileSize` stays 0. -/
theorem claim_C10_witness :
    Str2Int ([49, 48] ++ 0 :: []) = some 10 ∧
    Str2Int ([49] ++ 65 :: []) = none ∧
    Str2Int (List.replicate 12 49) = none ∧
    (ymodem_Feed cbAccept ymodem_fresh
        ([1, 0, 255] ++ wpayX ++ [crc16 wpayX >>> 8, crc16 wpayX % 256])).2 =
      ([ym_event.fileCb YMODEM_FILE_CB_NAME
          ([102, 105, 108, 101, 46, 98, 105, 110, 0] ++ List.replicate 247 0) 0,
        ym_event.serialTx [ACK, CRC16]],
       List.replicate 132 YMODEM_OK ++ [YMODEM_TX_PENDING]) ∧
    (ymodem_Feed cbAccept ymodem_fresh
        ([1, 0, 255] ++ wpayX ++ [crc16 wpayX >>> 8, crc16 wpayX % 256])).1.fileSize = 0 := by
  have h4 := claim_C10.2.2.2 cbAccept ymodem_fresh 1 0 255 (crc16 wpayX >>> 8)
    (crc16 wpayX % 256) wpayX [102, 105, 108, 101, 46, 98, 105, 110] [65]
    (List.replicate 117 0)
    (Or.inl ⟨rfl, by decide⟩) rfl rfl rfl (by decide) rfl rfl (by decide) (by decide)
    (by decide) (by decide) rfl rfl (by decide) (by decide) (by decide) (by decide)
    (by decide) (by decide) (by decide) rfl
  refine ⟨claim_C10.1 [49, 48] [] (by decide) (by decide),
    claim_C10.2.1 [49] 65 [] (by decide) (by decide) (by decide) (by decide),
    claim_C10.2.2.1 (List.replicate 12 49) (by decide), ?_, ?_⟩
  · rw [h4]
    all_goals decide
  · rw [h4]
    all_goals rfl

end Ymodem
